import Mathlib

/-!
Verification of the ZoryaCorporation/pulsar native core against its
specification.  The C sources under `src/native/` are shallowly embedded:
machine integers become `Nat` with explicit reduction modulo `2^64`,
pointers become indices or allocation counters, byte buffers become
`List Nat`, and fallible C functions return `Option`.

Components embedded here:
  * NXH        (src/native/hash/nxh.c, src/native/include/nxh.h)
  * DAGGER     (src/native/dagger/dagger.c, src/native/include/dagger.h)
  * WEAVE      (src/native/weave/weave.c: Weave mutation ops, Tablet)
  * Arena      (src/native/include/zorya_arena.h)
  * ZORYA-INI  (src/native/ini/zorya_ini.c)
  * ORDINAL    (src/native/ordinal/ordinal.c)
-/

namespace Pulsar

set_option maxRecDepth 4000

/-! ## 64-bit machine arithmetic -/

/-- Modulus for 64-bit wrap-around arithmetic. -/
def U64 : Nat := 18446744073709551616

/-- Reduce a natural number to a 64-bit value. -/
def w64 (x : Nat) : Nat := x % U64

/-- Rotate a 64-bit value left by `r` bits (nxh_rotl64 in nxh.h). -/
def rotl64 (x r : Nat) : Nat := w64 ((x <<< r) % U64 + (x >>> (64 - r)))

/-! ## NXH constants (src/native/include/nxh.h) -/

def NXH_PRIME_NEXUS : Nat := 0x9E3779B185EBCA87
def NXH_PRIME_VOID  : Nat := 0xC2B2AE3D27D4EB4F
def NXH_PRIME_ECHO  : Nat := 0x165667B19E3779F9
def NXH_PRIME_PULSE : Nat := 0x85EBCA77C2B2AE63
def NXH_PRIME_DRIFT : Nat := 0x27D4EB2F165667C5
def NXH_PRIME_ALT_1 : Nat := 0x517CC1B727220A95
def NXH_PRIME_ALT_2 : Nat := 0x71D67FFFEDA60000
def NXH_SEED_DEFAULT : Nat := 0
def NXH_SEED_ALT : Nat := 0xDEADBEEFCAFEBABE

/-! ## NXH helper functions (nxh.h inline helpers) -/

/-- Little-endian read of 8 bytes at offset `i` (nxh_read64). -/
def nxhRead64 (bs : List Nat) (i : Nat) : Nat :=
  bs.getD i 0 ||| (bs.getD (i+1) 0 <<< 8) ||| (bs.getD (i+2) 0 <<< 16) |||
  (bs.getD (i+3) 0 <<< 24) ||| (bs.getD (i+4) 0 <<< 32) |||
  (bs.getD (i+5) 0 <<< 40) ||| (bs.getD (i+6) 0 <<< 48) |||
  (bs.getD (i+7) 0 <<< 56)

/-- Little-endian read of 4 bytes at offset `i` (nxh_read32). -/
def nxhRead32 (bs : List Nat) (i : Nat) : Nat :=
  bs.getD i 0 ||| (bs.getD (i+1) 0 <<< 8) ||| (bs.getD (i+2) 0 <<< 16) |||
  (bs.getD (i+3) 0 <<< 24)

/-- Core mixing step (nxh_mix). -/
def nxhMix (acc input : Nat) : Nat :=
  w64 (rotl64 (w64 (acc + input * NXH_PRIME_VOID)) 31 * NXH_PRIME_NEXUS)

/-- Accumulator merge step (nxh_merge). -/
def nxhMerge (h v : Nat) : Nat :=
  let v := w64 (v * NXH_PRIME_VOID)
  let v := rotl64 v 31
  let v := w64 (v * NXH_PRIME_NEXUS)
  let h := h ^^^ v
  w64 (h * NXH_PRIME_NEXUS + NXH_PRIME_PULSE)

/-- Final avalanche (nxh_avalanche). -/
def nxhAvalanche (h : Nat) : Nat :=
  let h := h ^^^ (h >>> 33)
  let h := w64 (h * NXH_PRIME_VOID)
  let h := h ^^^ (h >>> 29)
  let h := w64 (h * NXH_PRIME_ECHO)
  h ^^^ (h >>> 32)

/-- Alternate mixing step (nxh_mix_alt). -/
def nxhMixAlt (acc input : Nat) : Nat :=
  w64 (rotl64 (w64 (acc + input * NXH_PRIME_ALT_2)) 27 * NXH_PRIME_ALT_1)

/-- Alternate final avalanche (nxh_avalanche_alt). -/
def nxhAvalancheAlt (h : Nat) : Nat :=
  let h := h ^^^ (h >>> 31)
  let h := w64 (h * NXH_PRIME_ALT_1)
  let h := h ^^^ (h >>> 27)
  let h := w64 (h * NXH_PRIME_ALT_2)
  h ^^^ (h >>> 33)

/-! ## nxh64 (src/native/hash/nxh.c lines 22-90) -/

/-- Block loop of nxh64: consume 32-byte blocks while `p <= limit`
(do-while in the source; the caller establishes the first iteration).
Recursion is structural on `fuel`; every caller passes fuel at least the
iteration count, so the fuel-exhaustion branch is never taken. -/
def nxh64Blocks (bs : List Nat) (limit : Nat) (fuel : Nat)
    (p v1 v2 v3 v4 : Nat) : Nat × Nat × Nat × Nat × Nat :=
  let v1 := nxhMix v1 (nxhRead64 bs p)
  let v2 := nxhMix v2 (nxhRead64 bs (p+8))
  let v3 := nxhMix v3 (nxhRead64 bs (p+16))
  let v4 := nxhMix v4 (nxhRead64 bs (p+24))
  let p := p + 32
  match fuel with
  | 0 => (p, v1, v2, v3, v4)
  | fuel + 1 =>
    if p ≤ limit then nxh64Blocks bs limit fuel p v1 v2 v3 v4
    else (p, v1, v2, v3, v4)

/-- Tail loop of nxh64: remaining 8-byte words. -/
def nxh64Tail8 (bs : List Nat) (len : Nat) (fuel : Nat) (p h : Nat) :
    Nat × Nat :=
  if p + 8 ≤ len then
    let k1 := w64 (nxhRead64 bs p * NXH_PRIME_VOID)
    let k1 := rotl64 k1 31
    let k1 := w64 (k1 * NXH_PRIME_NEXUS)
    let h := h ^^^ k1
    let h := w64 (rotl64 h 27 * NXH_PRIME_NEXUS + NXH_PRIME_PULSE)
    match fuel with
    | 0 => (p, h)
    | fuel + 1 => nxh64Tail8 bs len fuel (p+8) h
  else (p, h)

/-- Tail loop of nxh64: remaining single bytes. -/
def nxh64TailBytes (bs : List Nat) (len : Nat) (fuel : Nat) (p h : Nat) :
    Nat :=
  if p < len then
    let h := h ^^^ w64 (bs.getD p 0 * NXH_PRIME_DRIFT)
    let h := w64 (rotl64 h 11 * NXH_PRIME_NEXUS)
    match fuel with
    | 0 => h
    | fuel + 1 => nxh64TailBytes bs len fuel (p+1) h
  else h

/-- nxh64 on a non-NULL byte buffer (`len` is the buffer length). -/
def nxh64Bytes (bs : List Nat) (seed : Nat) : Nat :=
  let len := bs.length
  let (p, h) :=
    if 32 ≤ len then
      let v1 := w64 (seed + NXH_PRIME_NEXUS + NXH_PRIME_VOID)
      let v2 := w64 (seed + NXH_PRIME_VOID)
      let v3 := w64 seed
      let v4 := w64 (seed + U64 - NXH_PRIME_NEXUS)
      let (p, v1, v2, v3, v4) := nxh64Blocks bs (len - 32) len 0 v1 v2 v3 v4
      let h := w64 (rotl64 v1 1 + rotl64 v2 7 + rotl64 v3 12 + rotl64 v4 18)
      let h := nxhMerge h v1
      let h := nxhMerge h v2
      let h := nxhMerge h v3
      let h := nxhMerge h v4
      (p, h)
    else (0, w64 (seed + NXH_PRIME_DRIFT))
  let h := w64 (h + len)
  let (p, h) := nxh64Tail8 bs len len p h
  let (p, h) :=
    if p + 4 ≤ len then
      let h := h ^^^ w64 (nxhRead32 bs p * NXH_PRIME_NEXUS)
      (p + 4, w64 (rotl64 h 23 * NXH_PRIME_VOID + NXH_PRIME_ECHO))
    else (p, h)
  nxhAvalanche (nxh64TailBytes bs len len p h)

/-- Public nxh64: the data pointer may be NULL (`none`); a NULL pointer
with non-zero `len` yields a fixed seed-derived digest
(src/native/hash/nxh.c lines 27-29). -/
def nxh64 (data : Option (List Nat)) (len seed : Nat) : Nat :=
  match data with
  | none => if len ≠ 0 then nxhAvalanche (w64 (seed ^^^ NXH_PRIME_NEXUS))
            else nxh64Bytes [] seed
  | some bs => nxh64Bytes bs seed

/-! ## nxh64_alt (src/native/hash/nxh.c lines 96-158) -/

/-- Block loop of nxh64_alt (fuel-structural, same convention as
`nxh64Blocks`). -/
def nxh64AltBlocks (bs : List Nat) (limit : Nat) (fuel : Nat)
    (p v1 v2 v3 v4 : Nat) : Nat × Nat × Nat × Nat × Nat :=
  let v1 := nxhMixAlt v1 (nxhRead64 bs p)
  let v2 := nxhMixAlt v2 (nxhRead64 bs (p+8))
  let v3 := nxhMixAlt v3 (nxhRead64 bs (p+16))
  let v4 := nxhMixAlt v4 (nxhRead64 bs (p+24))
  let p := p + 32
  match fuel with
  | 0 => (p, v1, v2, v3, v4)
  | fuel + 1 =>
    if p ≤ limit then nxh64AltBlocks bs limit fuel p v1 v2 v3 v4
    else (p, v1, v2, v3, v4)

/-- Tail loop of nxh64_alt: remaining 8-byte words. -/
def nxh64AltTail8 (bs : List Nat) (len : Nat) (fuel : Nat) (p h : Nat) :
    Nat × Nat :=
  if p + 8 ≤ len then
    let k1 := w64 (nxhRead64 bs p * NXH_PRIME_ALT_2)
    let k1 := rotl64 k1 29
    let k1 := w64 (k1 * NXH_PRIME_ALT_1)
    let h := h ^^^ k1
    let h := w64 (rotl64 h 25 * NXH_PRIME_ALT_1 + NXH_PRIME_ALT_2)
    match fuel with
    | 0 => (p, h)
    | fuel + 1 => nxh64AltTail8 bs len fuel (p+8) h
  else (p, h)

/-- Tail loop of nxh64_alt: remaining single bytes. -/
def nxh64AltTailBytes (bs : List Nat) (len : Nat) (fuel : Nat) (p h : Nat) :
    Nat :=
  if p < len then
    let h := h ^^^ w64 (bs.getD p 0 * NXH_PRIME_ALT_2)
    let h := w64 (rotl64 h 13 * NXH_PRIME_ALT_1)
    match fuel with
    | 0 => h
    | fuel + 1 => nxh64AltTailBytes bs len fuel (p+1) h
  else h

/-- nxh64_alt on a non-NULL byte buffer. -/
def nxh64AltBytes (bs : List Nat) (seed : Nat) : Nat :=
  let len := bs.length
  let (p, h) :=
    if 32 ≤ len then
      let v1 := w64 (seed + NXH_PRIME_ALT_1 + NXH_PRIME_ALT_2)
      let v2 := w64 (seed + NXH_PRIME_ALT_2)
      let v3 := w64 seed
      let v4 := w64 (seed + U64 - NXH_PRIME_ALT_1)
      let (p, v1, v2, v3, v4) := nxh64AltBlocks bs (len - 32) len 0 v1 v2 v3 v4
      let h := w64 (rotl64 v1 3 + rotl64 v2 11 + rotl64 v3 17 + rotl64 v4 23)
      let h := h ^^^ w64 (v1 * NXH_PRIME_ALT_1)
      let h := h ^^^ w64 (v2 * NXH_PRIME_ALT_2)
      let h := h ^^^ w64 (v3 * NXH_PRIME_ALT_1)
      let h := h ^^^ w64 (v4 * NXH_PRIME_ALT_2)
      (p, h)
    else (0, w64 (seed + NXH_PRIME_ALT_1))
  let h := w64 (h + len)
  let (p, h) := nxh64AltTail8 bs len len p h
  let (p, h) :=
    if p + 4 ≤ len then
      let h := h ^^^ w64 (nxhRead32 bs p * NXH_PRIME_ALT_1)
      (p + 4, w64 (rotl64 h 21 * NXH_PRIME_ALT_2))
    else (p, h)
  nxhAvalancheAlt (nxh64AltTailBytes bs len len p h)

/-- Public nxh64_alt with the NULL-data guard
(src/native/hash/nxh.c lines 101-103). -/
def nxh64Alt (data : Option (List Nat)) (len seed : Nat) : Nat :=
  match data with
  | none => if len ≠ 0 then nxhAvalancheAlt (w64 (seed ^^^ NXH_PRIME_ALT_1))
            else nxh64AltBytes [] seed
  | some bs => nxh64AltBytes bs seed

/-- C10: for every length `len > 0` and every seed, `nxh64(NULL, len, seed)`
and `nxh64_alt(NULL, len, seed)` do not read any input bytes and return the
fixed seed-derived digests `nxh_avalanche(seed ^ NXH_PRIME_NEXUS)` and
`nxh_avalanche_alt(seed ^ NXH_PRIME_ALT_1)` respectively: a NULL data
pointer with non-zero length is a total, well-defined case of the public
hash API. -/
theorem nxh64_null_data_total (len seed : Nat) (h : 0 < len) :
    nxh64 none len seed = nxhAvalanche (w64 (seed ^^^ NXH_PRIME_NEXUS)) ∧
    nxh64Alt none len seed = nxhAvalancheAlt (w64 (seed ^^^ NXH_PRIME_ALT_1)) := by
  constructor <;> simp [nxh64, nxh64Alt, Nat.pos_iff_ne_zero.mp h]

/-- Witness for C10 at `len = 5`, `seed = 42`. -/
theorem nxh64_null_data_total_witness :
    0 < 5 ∧
    (nxh64 none 5 42 = nxhAvalanche (w64 (42 ^^^ NXH_PRIME_NEXUS)) ∧
     nxh64Alt none 5 42 = nxhAvalancheAlt (w64 (42 ^^^ NXH_PRIME_ALT_1))) :=
  ⟨by decide, nxh64_null_data_total 5 42 (by decide)⟩

/-! ## DAGGER (src/native/dagger/dagger.c, src/native/include/dagger.h)

Keys are byte lists, values are abstract `Nat` identifiers (the C stores
`void *` pointers).  The key-equality predicate is the default one
(`dagger_key_eq_default`: length equality plus byte-wise comparison).
The statistics fields (`max_psl`, `cuckoo_count`, `resize_count`,
`total_probes`, `total_lookups`) never feed back into control flow and
are omitted; destructors are not configured (NULL in the source). -/

def DAGGER_PSL_THRESHOLD : Nat := 16
def DAGGER_MAX_CUCKOO_CYCLES : Nat := 500
def DAGGER_INITIAL_CAPACITY : Nat := 64
def DAGGER_LOAD_FACTOR_PERCENT : Nat := 75
def DAGGER_MIN_CAPACITY : Nat := 16
def DAGGER_GROWTH_FACTOR : Nat := 2

/-- Result codes (dagger_result_t). -/
inductive DaggerResult where
  | ok
  | notFound
  | keyExists
  | errNullptr
  | errNomem
  | errFull
  | errInvalid
deriving Repr, DecidableEq

/-- One table slot (DaggerEntry).  `psl` is a uint8 and wraps at 256. -/
structure DEntry where
  hashPrimary : Nat
  hashAlternate : Nat
  key : List Nat
  value : Nat
  psl : Nat
  occupied : Bool
  inCuckoo : Bool
deriving Repr, DecidableEq

/-- The all-zero slot (calloc / memset result). -/
def DEntry.empty : DEntry :=
  { hashPrimary := 0, hashAlternate := 0, key := [], value := 0,
    psl := 0, occupied := false, inCuckoo := false }

/-- The table (DaggerTable), statistics omitted. -/
structure DTable where
  entries : List DEntry
  capacity : Nat
  mask : Nat
  count : Nat
  seedPrimary : Nat
  seedAlternate : Nat
deriving Repr, DecidableEq

/-- Read slot `i` (in the source, plain array indexing; indices stay
below `capacity` because they are masked). -/
def DTable.entryAt (T : DTable) (i : Nat) : DEntry := T.entries.getD i DEntry.empty

/-- Write slot `i`. -/
def DTable.setEntry (T : DTable) (i : Nat) (e : DEntry) : DTable :=
  { T with entries := T.entries.set i e }

/-- Default key equality (dagger_key_eq_default): length equal and
byte-wise equal. -/
def daggerKeyEqDefault (k1 k2 : List Nat) : Bool :=
  if k1.length ≠ k2.length then false else k1 == k2

/-- Next power of two (dagger_next_pow2). -/
def daggerNextPow2 (n : Nat) : Nat :=
  if n = 0 then 1 else
    let n := n - 1
    let n := n ||| (n >>> 1)
    let n := n ||| (n >>> 2)
    let n := n ||| (n >>> 4)
    let n := n ||| (n >>> 8)
    let n := n ||| (n >>> 16)
    let n := n ||| (n >>> 32)
    w64 (n + 1)

/-- Table creation (dagger_create with the default key equality).
Allocation failures are not modelled. -/
def daggerCreate (initialCapacity : Nat) : DTable :=
  let cap := if initialCapacity < DAGGER_MIN_CAPACITY
             then DAGGER_INITIAL_CAPACITY else initialCapacity
  let cap := daggerNextPow2 cap
  { entries := List.replicate cap DEntry.empty
    capacity := cap
    mask := cap - 1
    count := 0
    seedPrimary := NXH_SEED_DEFAULT
    seedAlternate := NXH_SEED_ALT }

/-- Main loop of dagger_insert_internal (dagger.c lines 185-248).
`fuel` bounds the iteration count; on exhaustion the result is `none`
(the C loop would keep running).  On every path taken by the proofs in
this file the fuel is not the binding constraint. -/
def daggerInsertLoop (key : List Nat) (value : Nat) (h1 : Nat)
    (allowReplace : Bool) (T : DTable) (entry : DEntry) (idx : Nat)
    (cuckooCycles : Nat) (inCuckooPhase : Bool) (fuel : Nat) :
    Option (DaggerResult × DTable) :=
  match fuel with
  | 0 => none
  | fuel + 1 =>
    let slot := T.entryAt idx
    if !slot.occupied then
      let T := T.setEntry idx { entry with inCuckoo := inCuckooPhase }
      some (.ok, { T with count := T.count + 1 })
    else if slot.hashPrimary == h1 && slot.key.length == key.length &&
            daggerKeyEqDefault slot.key key then
      if allowReplace then
        some (.ok, T.setEntry idx { slot with key := key, value := value })
      else
        some (.keyExists, T)
    else
      let (T, entry) :=
        if entry.psl > slot.psl then
          (T.setEntry idx { entry with inCuckoo := inCuckooPhase }, slot)
        else (T, entry)
      let entry := { entry with psl := (entry.psl + 1) % 256 }
      let idx := (idx + 1) &&& T.mask
      let (entry, idx, cuckooCycles, inCuckooPhase) :=
        if !inCuckooPhase && entry.psl > DAGGER_PSL_THRESHOLD then
          ({ entry with psl := 0 }, entry.hashAlternate &&& T.mask, 0, true)
        else (entry, idx, cuckooCycles, inCuckooPhase)
      if inCuckooPhase then
        let cuckooCycles := cuckooCycles + 1
        if cuckooCycles > DAGGER_MAX_CUCKOO_CYCLES then some (.errFull, T)
        else daggerInsertLoop key value h1 allowReplace T entry idx
               cuckooCycles inCuckooPhase fuel
      else
        daggerInsertLoop key value h1 allowReplace T entry idx
          cuckooCycles inCuckooPhase fuel

/-- dagger_insert_internal (dagger.c lines 162-249). -/
def daggerInsertInternal (T : DTable) (key : List Nat) (value : Nat)
    (h1 h2 : Nat) (allowReplace : Bool) : Option (DaggerResult × DTable) :=
  let entry : DEntry :=
    { hashPrimary := h1, hashAlternate := h2, key := key, value := value,
      psl := 0, occupied := true, inCuckoo := false }
  daggerInsertLoop key value h1 allowReplace T entry (h1 &&& T.mask) 0 false
    (T.capacity + DAGGER_MAX_CUCKOO_CYCLES + 200)

/-- Re-insertion walk of dagger_resize over the old slots; on a non-OK
insert the old table is restored and the error returned. -/
def daggerResizeGo (oldT : DTable) (olds : List DEntry) (acc : DTable) :
    Option (DaggerResult × DTable) :=
  match olds with
  | [] => some (.ok, acc)
  | e :: rest =>
    if e.occupied then
      match daggerInsertInternal acc e.key e.value e.hashPrimary
          e.hashAlternate true with
      | none => none
      | some (.ok, acc') => daggerResizeGo oldT rest acc'
      | some (r, _) => some (r, oldT)
    else daggerResizeGo oldT rest acc

/-- dagger_resize (dagger.c lines 102-156).  Allocation failure of the
fresh slot array is not modelled. -/
def daggerResize (T : DTable) (newCapacity : Nat) :
    Option (DaggerResult × DTable) :=
  let nc := daggerNextPow2 newCapacity
  let nc := if nc < DAGGER_MIN_CAPACITY then DAGGER_MIN_CAPACITY else nc
  let fresh : DTable :=
    { entries := List.replicate nc DEntry.empty
      capacity := nc
      mask := nc - 1
      count := 0
      seedPrimary := T.seedPrimary
      seedAlternate := T.seedAlternate }
  daggerResizeGo T T.entries fresh

/-- dagger_set (dagger.c lines 255-295). -/
def daggerSet (T : DTable) (key : List Nat) (value : Nat)
    (replace : Bool) : Option (DaggerResult × DTable) :=
  if key.length = 0 then some (.errInvalid, T)
  else
    let pre :=
      if T.count ≥ T.capacity * DAGGER_LOAD_FACTOR_PERCENT / 100 then
        daggerResize T (T.capacity * DAGGER_GROWTH_FACTOR)
      else some (.ok, T)
    match pre with
    | none => none
    | some (r, T) =>
      if r ≠ .ok then some (r, T)
      else
        let h1 := nxh64 (some key) key.length T.seedPrimary
        let h2 := nxh64Alt (some key) key.length T.seedAlternate
        match daggerInsertInternal T key value h1 h2 replace with
        | none => none
        | some (.errFull, T) =>
          match daggerResize T (T.capacity * DAGGER_GROWTH_FACTOR) with
          | none => none
          | some (r, T) =>
            if r ≠ .ok then some (r, T)
            else
              let h1 := nxh64 (some key) key.length T.seedPrimary
              let h2 := nxh64Alt (some key) key.length T.seedAlternate
              daggerInsertInternal T key value h1 h2 replace
        | some (r, T) => some (r, T)

/-- Phase 1 of dagger_get (Robin Hood probe, dagger.c lines 317-349).
Returns `some` on a definitive answer, `none` to fall through into the
cuckoo phase; the second component is the probe counter.  The loop runs
at most `DAGGER_PSL_THRESHOLD + 2` iterations because of its own
`probes > DAGGER_PSL_THRESHOLD + 1` break. -/
def daggerGetPhase1 (T : DTable) (h1 : Nat) (key : List Nat)
    (fuel : Nat) (idx probes : Nat) :
    Option (DaggerResult × Option Nat) × Nat :=
  let slot := T.entryAt idx
  let probes := probes + 1
  if !slot.occupied then (some (.notFound, none), probes)
  else if slot.hashPrimary == h1 && slot.key.length == key.length &&
          daggerKeyEqDefault slot.key key then
    (some (.ok, some slot.value), probes)
  else if slot.psl < probes - 1 then (none, probes)
  else if probes > DAGGER_PSL_THRESHOLD + 1 then (none, probes)
  else
    match fuel with
    | 0 => (none, probes)
    | fuel + 1 => daggerGetPhase1 T h1 key fuel ((idx + 1) &&& T.mask) probes

/-- Phase 2 of dagger_get (cuckoo probe, dagger.c lines 352-375).
The source iterates `i = 0 .. DAGGER_PSL_THRESHOLD`; here `fuel` counts
the remaining iterations, starting at `DAGGER_PSL_THRESHOLD + 1`. -/
def daggerGetPhase2 (T : DTable) (h2 : Nat) (key : List Nat)
    (fuel : Nat) (idx probes : Nat) : (DaggerResult × Option Nat) × Nat :=
  match fuel with
  | 0 => ((.notFound, none), probes)
  | fuel + 1 =>
    let slot := T.entryAt idx
    let probes := probes + 1
    if !slot.occupied then ((.notFound, none), probes)
    else if slot.inCuckoo && slot.hashAlternate == h2 &&
            slot.key.length == key.length &&
            daggerKeyEqDefault slot.key key then
      ((.ok, some slot.value), probes)
    else daggerGetPhase2 T h2 key fuel ((idx + 1) &&& T.mask) probes

/-- dagger_get (dagger.c lines 297-379).  Returns the result code, the
value output parameter, and the probe count accumulated across both
phases (the quantity the source adds to `total_probes`).  Phase 1 runs
at most `DAGGER_PSL_THRESHOLD + 2` iterations (its own `probes` break
fires first, so the fuel is not the binding constraint); phase 2 runs
at most `DAGGER_PSL_THRESHOLD + 1`. -/
def daggerGet (T : DTable) (key : List Nat) :
    DaggerResult × Option Nat × Nat :=
  if key.length = 0 then (.errInvalid, none, 0)
  else
    let h1 := nxh64 (some key) key.length T.seedPrimary
    match daggerGetPhase1 T h1 key (DAGGER_PSL_THRESHOLD + 2)
        (h1 &&& T.mask) 0 with
    | (some (r, v), probes) => (r, v, probes)
    | (none, probes) =>
      let h2 := nxh64Alt (some key) key.length T.seedAlternate
      let ((r, v), probes) :=
        daggerGetPhase2 T h2 key (DAGGER_PSL_THRESHOLD + 1)
          (h2 &&& T.mask) probes
      (r, v, probes)

/-- Run a list of `dagger_set` calls (replace = 1) left to right,
requiring every call to return DAGGER_OK. -/
def daggerSetMany (T : DTable) (kvs : List (List Nat × Nat)) :
    Option DTable :=
  match kvs with
  | [] => some T
  | (k, v) :: rest =>
    match daggerSet T k v true with
    | some (.ok, T') => daggerSetMany T' rest
    | _ => none

/-- Build a table literal with the given occupied slots (proof-side
notation for concrete table states; not part of the source). -/
def mkTable (cap count : Nat) (slots : List (Nat × DEntry)) : DTable :=
  { entries := slots.foldl (fun es p => es.set p.1 p.2)
      (List.replicate cap DEntry.empty)
    capacity := cap
    mask := cap - 1
    count := count
    seedPrimary := NXH_SEED_DEFAULT
    seedAlternate := NXH_SEED_ALT }

/-! ## Tablet (src/native/weave/weave.c lines 1072-1195)

The intern pool: a DAGGER table mapping string bytes to interned Weave
pointers, backed by an arena.  Pointer identity is modelled by an
allocation counter: each arena allocation of a fresh interned Weave
consumes one identifier (ids start at 1 so that a stored value is never
the NULL pointer).  `contents` records each id's byte content. -/

def TABLET_INITIAL_BUCKETS : Nat := 256

/-- Allocation size of a Weave with capacity `cap`
(weave_alloc_size: header 24 bytes + cap + NUL, aligned to 8). -/
def weaveAllocSize (cap : Nat) : Nat := (24 + cap + 1 + 7) / 8 * 8

/-- Tablet state (struct Tablet). -/
structure Tablet where
  pool : DTable
  nextId : Nat
  contents : List (List Nat)
  count : Nat
  memory : Nat
deriving Repr, DecidableEq

/-- tablet_create / tablet_create_sized(TABLET_INITIAL_BUCKETS). -/
def tabletCreate : Tablet :=
  { pool := daggerCreate TABLET_INITIAL_BUCKETS
    nextId := 1
    contents := []
    count := 0
    memory := 0 }

/-- tablet_intern_len (weave.c lines 1116-1152).  Returns the interned
Weave pointer (`none` is the NULL return) and the updated tablet.  On
the slow path the arena allocation happens before the dagger_set, so the
allocation counter advances even when the insert fails. -/
def tabletInternLen (T : Tablet) (s : List Nat) : Option Nat × Tablet :=
  match daggerGet T.pool s with
  | (.ok, some id, _) => (some id, T)
  | _ =>
    let id := T.nextId
    match daggerSet T.pool s id false with
    | some (.ok, pool') =>
      (some id,
       { pool := pool', nextId := id + 1, contents := T.contents ++ [s],
         count := T.count + 1,
         memory := T.memory + weaveAllocSize s.length })
    | some (_, pool') => (none, { T with pool := pool', nextId := id + 1 })
    | none => (none, { T with nextId := id + 1 })

/-- tablet_lookup_len (weave.c lines 1172-1183). -/
def tabletLookupLen (T : Tablet) (s : List Nat) : Option Nat :=
  match daggerGet T.pool s with
  | (.ok, some id, _) => some id
  | _ => none

/-- Failing input for C1: seventeen two-byte keys whose primary
hash lands on slot 0 of a capacity-32 table, followed by the key
`c1X` whose insertion overflows the Robin Hood probe sequence and
is placed in its cuckoo slot.  All eighteen dagger_set calls
return DAGGER_OK and no key is ever removed. -/
def c1Keys : List (List Nat × Nat) :=
  [([99,98], 0), ([99,102], 1), ([99,104], 2), ([101,99], 3), ([101,118], 4), ([102,49], 5), ([103,56], 6), ([105,56], 7), ([106,48], 8), ([107,102], 9), ([107,115], 10), ([108,101], 11), ([110,105], 12), ([110,116], 13), ([110,54], 14), ([112,98], 15), ([113,103], 16),
   ([117,121], 99)]

/-- The cuckoo-displaced key of the C1 failing input. -/
def c1X : List Nat := [117,121]

/-- Table state after insert 1 of the C1 sequence. -/
def c1T1 : DTable :=
  mkTable 32 1
    [(0, ⟨2038307204526247520, 7202689399594978284, [99,98], 0, 0, true, false⟩)]

/-- Table state after insert 2 of the C1 sequence. -/
def c1T2 : DTable :=
  mkTable 32 2
    [(0, ⟨2038307204526247520, 7202689399594978284, [99,98], 0, 0, true, false⟩),
     (1, ⟨668233935347106112, 11484738024150728241, [99,102], 1, 1, true, false⟩)]

/-- Table state after insert 3 of the C1 sequence. -/
def c1T3 : DTable :=
  mkTable 32 3
    [(0, ⟨2038307204526247520, 7202689399594978284, [99,98], 0, 0, true, false⟩),
     (1, ⟨668233935347106112, 11484738024150728241, [99,102], 1, 1, true, false⟩),
     (2, ⟨5829892530068920288, 2779842172024389085, [99,104], 2, 2, true, false⟩)]

/-- Table state after insert 4 of the C1 sequence. -/
def c1T4 : DTable :=
  mkTable 32 4
    [(0, ⟨2038307204526247520, 7202689399594978284, [99,98], 0, 0, true, false⟩),
     (1, ⟨668233935347106112, 11484738024150728241, [99,102], 1, 1, true, false⟩),
     (2, ⟨5829892530068920288, 2779842172024389085, [99,104], 2, 2, true, false⟩),
     (3, ⟨11483941458632071168, 8988452055586222786, [101,99], 3, 3, true, false⟩)]

/-- Table state after insert 5 of the C1 sequence. -/
def c1T5 : DTable :=
  mkTable 32 5
    [(0, ⟨2038307204526247520, 7202689399594978284, [99,98], 0, 0, true, false⟩),
     (1, ⟨668233935347106112, 11484738024150728241, [99,102], 1, 1, true, false⟩),
     (2, ⟨5829892530068920288, 2779842172024389085, [99,104], 2, 2, true, false⟩),
     (3, ⟨11483941458632071168, 8988452055586222786, [101,99], 3, 3, true, false⟩),
     (4, ⟨14094218437344520256, 11601408469263465924, [101,118], 4, 4, true, false⟩)]

/-- Table state after insert 6 of the C1 sequence. -/
def c1T6 : DTable :=
  mkTable 32 6
    [(0, ⟨2038307204526247520, 7202689399594978284, [99,98], 0, 0, true, false⟩),
     (1, ⟨668233935347106112, 11484738024150728241, [99,102], 1, 1, true, false⟩),
     (2, ⟨5829892530068920288, 2779842172024389085, [99,104], 2, 2, true, false⟩),
     (3, ⟨11483941458632071168, 8988452055586222786, [101,99], 3, 3, true, false⟩),
     (4, ⟨14094218437344520256, 11601408469263465924, [101,118], 4, 4, true, false⟩),
     (5, ⟨16125700433164018688, 10506725177053917552, [102,49], 5, 5, true, false⟩)]

/-- Table state after insert 7 of the C1 sequence. -/
def c1T7 : DTable :=
  mkTable 32 7
    [(0, ⟨2038307204526247520, 7202689399594978284, [99,98], 0, 0, true, false⟩),
     (1, ⟨668233935347106112, 11484738024150728241, [99,102], 1, 1, true, false⟩),
     (2, ⟨5829892530068920288, 2779842172024389085, [99,104], 2, 2, true, false⟩),
     (3, ⟨11483941458632071168, 8988452055586222786, [101,99], 3, 3, true, false⟩),
     (4, ⟨14094218437344520256, 11601408469263465924, [101,118], 4, 4, true, false⟩),
     (5, ⟨16125700433164018688, 10506725177053917552, [102,49], 5, 5, true, false⟩),
     (6, ⟨227693398839588736, 4692996386091331500, [103,56], 6, 6, true, false⟩)]

/-- Table state after insert 8 of the C1 sequence. -/
def c1T8 : DTable :=
  mkTable 32 8
    [(0, ⟨2038307204526247520, 7202689399594978284, [99,98], 0, 0, true, false⟩),
     (1, ⟨668233935347106112, 11484738024150728241, [99,102], 1, 1, true, false⟩),
     (2, ⟨5829892530068920288, 2779842172024389085, [99,104], 2, 2, true, false⟩),
     (3, ⟨11483941458632071168, 8988452055586222786, [101,99], 3, 3, true, false⟩),
     (4, ⟨14094218437344520256, 11601408469263465924, [101,118], 4, 4, true, false⟩),
     (5, ⟨16125700433164018688, 10506725177053917552, [102,49], 5, 5, true, false⟩),
     (6, ⟨227693398839588736, 4692996386091331500, [103,56], 6, 6, true, false⟩),
     (7, ⟨12641391398297357888, 9328825690675303109, [105,56], 7, 7, true, false⟩)]

/-- Table state after insert 9 of the C1 sequence. -/
def c1T9 : DTable :=
  mkTable 32 9
    [(0, ⟨2038307204526247520, 7202689399594978284, [99,98], 0, 0, true, false⟩),
     (1, ⟨668233935347106112, 11484738024150728241, [99,102], 1, 1, true, false⟩),
     (2, ⟨5829892530068920288, 2779842172024389085, [99,104], 2, 2, true, false⟩),
     (3, ⟨11483941458632071168, 8988452055586222786, [101,99], 3, 3, true, false⟩),
     (4, ⟨14094218437344520256, 11601408469263465924, [101,118], 4, 4, true, false⟩),
     (5, ⟨16125700433164018688, 10506725177053917552, [102,49], 5, 5, true, false⟩),
     (6, ⟨227693398839588736, 4692996386091331500, [103,56], 6, 6, true, false⟩),
     (7, ⟨12641391398297357888, 9328825690675303109, [105,56], 7, 7, true, false⟩),
     (8, ⟨15421967445698008064, 617115892646033361, [106,48], 8, 8, true, false⟩)]

/-- Table state after insert 10 of the C1 sequence. -/
def c1T10 : DTable :=
  mkTable 32 10
    [(0, ⟨2038307204526247520, 7202689399594978284, [99,98], 0, 0, true, false⟩),
     (1, ⟨668233935347106112, 11484738024150728241, [99,102], 1, 1, true, false⟩),
     (2, ⟨5829892530068920288, 2779842172024389085, [99,104], 2, 2, true, false⟩),
     (3, ⟨11483941458632071168, 8988452055586222786, [101,99], 3, 3, true, false⟩),
     (4, ⟨14094218437344520256, 11601408469263465924, [101,118], 4, 4, true, false⟩),
     (5, ⟨16125700433164018688, 10506725177053917552, [102,49], 5, 5, true, false⟩),
     (6, ⟨227693398839588736, 4692996386091331500, [103,56], 6, 6, true, false⟩),
     (7, ⟨12641391398297357888, 9328825690675303109, [105,56], 7, 7, true, false⟩),
     (8, ⟨15421967445698008064, 617115892646033361, [106,48], 8, 8, true, false⟩),
     (9, ⟨14215163764724499872, 10559813384643411753, [107,102], 9, 9, true, false⟩)]

/-- Table state after insert 11 of the C1 sequence. -/
def c1T11 : DTable :=
  mkTable 32 11
    [(0, ⟨2038307204526247520, 7202689399594978284, [99,98], 0, 0, true, false⟩),
     (1, ⟨668233935347106112, 11484738024150728241, [99,102], 1, 1, true, false⟩),
     (2, ⟨5829892530068920288, 2779842172024389085, [99,104], 2, 2, true, false⟩),
     (3, ⟨11483941458632071168, 8988452055586222786, [101,99], 3, 3, true, false⟩),
     (4, ⟨14094218437344520256, 11601408469263465924, [101,118], 4, 4, true, false⟩),
     (5, ⟨16125700433164018688, 10506725177053917552, [102,49], 5, 5, true, false⟩),
     (6, ⟨227693398839588736, 4692996386091331500, [103,56], 6, 6, true, false⟩),
     (7, ⟨12641391398297357888, 9328825690675303109, [105,56], 7, 7, true, false⟩),
     (8, ⟨15421967445698008064, 617115892646033361, [106,48], 8, 8, true, false⟩),
     (9, ⟨14215163764724499872, 10559813384643411753, [107,102], 9, 9, true, false⟩),
     (10, ⟨11126023753094762784, 15961850956279574896, [107,115], 10, 10, true, false⟩)]

/-- Table state after insert 12 of the C1 sequence. -/
def c1T12 : DTable :=
  mkTable 32 12
    [(0, ⟨2038307204526247520, 7202689399594978284, [99,98], 0, 0, true, false⟩),
     (1, ⟨668233935347106112, 11484738024150728241, [99,102], 1, 1, true, false⟩),
     (2, ⟨5829892530068920288, 2779842172024389085, [99,104], 2, 2, true, false⟩),
     (3, ⟨11483941458632071168, 8988452055586222786, [101,99], 3, 3, true, false⟩),
     (4, ⟨14094218437344520256, 11601408469263465924, [101,118], 4, 4, true, false⟩),
     (5, ⟨16125700433164018688, 10506725177053917552, [102,49], 5, 5, true, false⟩),
     (6, ⟨227693398839588736, 4692996386091331500, [103,56], 6, 6, true, false⟩),
     (7, ⟨12641391398297357888, 9328825690675303109, [105,56], 7, 7, true, false⟩),
     (8, ⟨15421967445698008064, 617115892646033361, [106,48], 8, 8, true, false⟩),
     (9, ⟨14215163764724499872, 10559813384643411753, [107,102], 9, 9, true, false⟩),
     (10, ⟨11126023753094762784, 15961850956279574896, [107,115], 10, 10, true, false⟩),
     (11, ⟨11033929713840175200, 2290346045000939723, [108,101], 11, 11, true, false⟩)]

/-- Table state after insert 13 of the C1 sequence. -/
def c1T13 : DTable :=
  mkTable 32 13
    [(0, ⟨2038307204526247520, 7202689399594978284, [99,98], 0, 0, true, false⟩),
     (1, ⟨668233935347106112, 11484738024150728241, [99,102], 1, 1, true, false⟩),
     (2, ⟨5829892530068920288, 2779842172024389085, [99,104], 2, 2, true, false⟩),
     (3, ⟨11483941458632071168, 8988452055586222786, [101,99], 3, 3, true, false⟩),
     (4, ⟨14094218437344520256, 11601408469263465924, [101,118], 4, 4, true, false⟩),
     (5, ⟨16125700433164018688, 10506725177053917552, [102,49], 5, 5, true, false⟩),
     (6, ⟨227693398839588736, 4692996386091331500, [103,56], 6, 6, true, false⟩),
     (7, ⟨12641391398297357888, 9328825690675303109, [105,56], 7, 7, true, false⟩),
     (8, ⟨15421967445698008064, 617115892646033361, [106,48], 8, 8, true, false⟩),
     (9, ⟨14215163764724499872, 10559813384643411753, [107,102], 9, 9, true, false⟩),
     (10, ⟨11126023753094762784, 15961850956279574896, [107,115], 10, 10, true, false⟩),
     (11, ⟨11033929713840175200, 2290346045000939723, [108,101], 11, 11, true, false⟩),
     (12, ⟨10328547024795276608, 15164038539353308762, [110,105], 12, 12, true, false⟩)]

/-- Table state after insert 14 of the C1 sequence. -/
def c1T14 : DTable :=
  mkTable 32 14
    [(0, ⟨2038307204526247520, 7202689399594978284, [99,98], 0, 0, true, false⟩),
     (1, ⟨668233935347106112, 11484738024150728241, [99,102], 1, 1, true, false⟩),
     (2, ⟨5829892530068920288, 2779842172024389085, [99,104], 2, 2, true, false⟩),
     (3, ⟨11483941458632071168, 8988452055586222786, [101,99], 3, 3, true, false⟩),
     (4, ⟨14094218437344520256, 11601408469263465924, [101,118], 4, 4, true, false⟩),
     (5, ⟨16125700433164018688, 10506725177053917552, [102,49], 5, 5, true, false⟩),
     (6, ⟨227693398839588736, 4692996386091331500, [103,56], 6, 6, true, false⟩),
     (7, ⟨12641391398297357888, 9328825690675303109, [105,56], 7, 7, true, false⟩),
     (8, ⟨15421967445698008064, 617115892646033361, [106,48], 8, 8, true, false⟩),
     (9, ⟨14215163764724499872, 10559813384643411753, [107,102], 9, 9, true, false⟩),
     (10, ⟨11126023753094762784, 15961850956279574896, [107,115], 10, 10, true, false⟩),
     (11, ⟨11033929713840175200, 2290346045000939723, [108,101], 11, 11, true, false⟩),
     (12, ⟨10328547024795276608, 15164038539353308762, [110,105], 12, 12, true, false⟩),
     (13, ⟨1831170432456860160, 14968836199967882907, [110,116], 13, 13, true, false⟩)]

/-- Table state after insert 15 of the C1 sequence. -/
def c1T15 : DTable :=
  mkTable 32 15
    [(0, ⟨2038307204526247520, 7202689399594978284, [99,98], 0, 0, true, false⟩),
     (1, ⟨668233935347106112, 11484738024150728241, [99,102], 1, 1, true, false⟩),
     (2, ⟨5829892530068920288, 2779842172024389085, [99,104], 2, 2, true, false⟩),
     (3, ⟨11483941458632071168, 8988452055586222786, [101,99], 3, 3, true, false⟩),
     (4, ⟨14094218437344520256, 11601408469263465924, [101,118], 4, 4, true, false⟩),
     (5, ⟨16125700433164018688, 10506725177053917552, [102,49], 5, 5, true, false⟩),
     (6, ⟨227693398839588736, 4692996386091331500, [103,56], 6, 6, true, false⟩),
     (7, ⟨12641391398297357888, 9328825690675303109, [105,56], 7, 7, true, false⟩),
     (8, ⟨15421967445698008064, 617115892646033361, [106,48], 8, 8, true, false⟩),
     (9, ⟨14215163764724499872, 10559813384643411753, [107,102], 9, 9, true, false⟩),
     (10, ⟨11126023753094762784, 15961850956279574896, [107,115], 10, 10, true, false⟩),
     (11, ⟨11033929713840175200, 2290346045000939723, [108,101], 11, 11, true, false⟩),
     (12, ⟨10328547024795276608, 15164038539353308762, [110,105], 12, 12, true, false⟩),
     (13, ⟨1831170432456860160, 14968836199967882907, [110,116], 13, 13, true, false⟩),
     (14, ⟨1186646247708285504, 7693662081414508659, [110,54], 14, 14, true, false⟩)]

/-- Table state after insert 16 of the C1 sequence. -/
def c1T16 : DTable :=
  mkTable 32 16
    [(0, ⟨2038307204526247520, 7202689399594978284, [99,98], 0, 0, true, false⟩),
     (1, ⟨668233935347106112, 11484738024150728241, [99,102], 1, 1, true, false⟩),
     (2, ⟨5829892530068920288, 2779842172024389085, [99,104], 2, 2, true, false⟩),
     (3, ⟨11483941458632071168, 8988452055586222786, [101,99], 3, 3, true, false⟩),
     (4, ⟨14094218437344520256, 11601408469263465924, [101,118], 4, 4, true, false⟩),
     (5, ⟨16125700433164018688, 10506725177053917552, [102,49], 5, 5, true, false⟩),
     (6, ⟨227693398839588736, 4692996386091331500, [103,56], 6, 6, true, false⟩),
     (7, ⟨12641391398297357888, 9328825690675303109, [105,56], 7, 7, true, false⟩),
     (8, ⟨15421967445698008064, 617115892646033361, [106,48], 8, 8, true, false⟩),
     (9, ⟨14215163764724499872, 10559813384643411753, [107,102], 9, 9, true, false⟩),
     (10, ⟨11126023753094762784, 15961850956279574896, [107,115], 10, 10, true, false⟩),
     (11, ⟨11033929713840175200, 2290346045000939723, [108,101], 11, 11, true, false⟩),
     (12, ⟨10328547024795276608, 15164038539353308762, [110,105], 12, 12, true, false⟩),
     (13, ⟨1831170432456860160, 14968836199967882907, [110,116], 13, 13, true, false⟩),
     (14, ⟨1186646247708285504, 7693662081414508659, [110,54], 14, 14, true, false⟩),
     (15, ⟨13735717477570754848, 4912466625812253487, [112,98], 15, 15, true, false⟩)]

/-- Table state after insert 17 of the C1 sequence. -/
def c1T17 : DTable :=
  mkTable 32 17
    [(0, ⟨2038307204526247520, 7202689399594978284, [99,98], 0, 0, true, false⟩),
     (1, ⟨668233935347106112, 11484738024150728241, [99,102], 1, 1, true, false⟩),
     (2, ⟨5829892530068920288, 2779842172024389085, [99,104], 2, 2, true, false⟩),
     (3, ⟨11483941458632071168, 8988452055586222786, [101,99], 3, 3, true, false⟩),
     (4, ⟨14094218437344520256, 11601408469263465924, [101,118], 4, 4, true, false⟩),
     (5, ⟨16125700433164018688, 10506725177053917552, [102,49], 5, 5, true, false⟩),
     (6, ⟨227693398839588736, 4692996386091331500, [103,56], 6, 6, true, false⟩),
     (7, ⟨12641391398297357888, 9328825690675303109, [105,56], 7, 7, true, false⟩),
     (8, ⟨15421967445698008064, 617115892646033361, [106,48], 8, 8, true, false⟩),
     (9, ⟨14215163764724499872, 10559813384643411753, [107,102], 9, 9, true, false⟩),
     (10, ⟨11126023753094762784, 15961850956279574896, [107,115], 10, 10, true, false⟩),
     (11, ⟨11033929713840175200, 2290346045000939723, [108,101], 11, 11, true, false⟩),
     (12, ⟨10328547024795276608, 15164038539353308762, [110,105], 12, 12, true, false⟩),
     (13, ⟨1831170432456860160, 14968836199967882907, [110,116], 13, 13, true, false⟩),
     (14, ⟨1186646247708285504, 7693662081414508659, [110,54], 14, 14, true, false⟩),
     (15, ⟨13735717477570754848, 4912466625812253487, [112,98], 15, 15, true, false⟩),
     (16, ⟨381317925380479040, 5352649443171252007, [113,103], 16, 16, true, false⟩)]

/-- Table state after insert 18 of the C1 sequence. -/
def c1T18 : DTable :=
  mkTable 32 18
    [(0, ⟨2038307204526247520, 7202689399594978284, [99,98], 0, 0, true, false⟩),
     (1, ⟨668233935347106112, 11484738024150728241, [99,102], 1, 1, true, false⟩),
     (2, ⟨5829892530068920288, 2779842172024389085, [99,104], 2, 2, true, false⟩),
     (3, ⟨11483941458632071168, 8988452055586222786, [101,99], 3, 3, true, false⟩),
     (4, ⟨14094218437344520256, 11601408469263465924, [101,118], 4, 4, true, false⟩),
     (5, ⟨16125700433164018688, 10506725177053917552, [102,49], 5, 5, true, false⟩),
     (6, ⟨227693398839588736, 4692996386091331500, [103,56], 6, 6, true, false⟩),
     (7, ⟨12641391398297357888, 9328825690675303109, [105,56], 7, 7, true, false⟩),
     (8, ⟨15421967445698008064, 617115892646033361, [106,48], 8, 8, true, false⟩),
     (9, ⟨14215163764724499872, 10559813384643411753, [107,102], 9, 9, true, false⟩),
     (10, ⟨11126023753094762784, 15961850956279574896, [107,115], 10, 10, true, false⟩),
     (11, ⟨11033929713840175200, 2290346045000939723, [108,101], 11, 11, true, false⟩),
     (12, ⟨10328547024795276608, 15164038539353308762, [110,105], 12, 12, true, false⟩),
     (13, ⟨1831170432456860160, 14968836199967882907, [110,116], 13, 13, true, false⟩),
     (14, ⟨1186646247708285504, 7693662081414508659, [110,54], 14, 14, true, false⟩),
     (15, ⟨13735717477570754848, 4912466625812253487, [112,98], 15, 15, true, false⟩),
     (16, ⟨381317925380479040, 5352649443171252007, [113,103], 16, 16, true, false⟩),
     (19, ⟨11888727190087240512, 1802076906519470515, [117,121], 99, 0, true, true⟩)]

theorem c1_step1 :
    daggerSet (daggerCreate 32) [99,98] 0 true = some (.ok, c1T1) := rfl

theorem c1_step2 :
    daggerSet c1T1 [99,102] 1 true = some (.ok, c1T2) := rfl

theorem c1_step3 :
    daggerSet c1T2 [99,104] 2 true = some (.ok, c1T3) := rfl

theorem c1_step4 :
    daggerSet c1T3 [101,99] 3 true = some (.ok, c1T4) := rfl

theorem c1_step5 :
    daggerSet c1T4 [101,118] 4 true = some (.ok, c1T5) := rfl

theorem c1_step6 :
    daggerSet c1T5 [102,49] 5 true = some (.ok, c1T6) := rfl

theorem c1_step7 :
    daggerSet c1T6 [103,56] 6 true = some (.ok, c1T7) := rfl

theorem c1_step8 :
    daggerSet c1T7 [105,56] 7 true = some (.ok, c1T8) := rfl

theorem c1_step9 :
    daggerSet c1T8 [106,48] 8 true = some (.ok, c1T9) := rfl

theorem c1_step10 :
    daggerSet c1T9 [107,102] 9 true = some (.ok, c1T10) := rfl

theorem c1_step11 :
    daggerSet c1T10 [107,115] 10 true = some (.ok, c1T11) := rfl

theorem c1_step12 :
    daggerSet c1T11 [108,101] 11 true = some (.ok, c1T12) := rfl

theorem c1_step13 :
    daggerSet c1T12 [110,105] 12 true = some (.ok, c1T13) := rfl

theorem c1_step14 :
    daggerSet c1T13 [110,116] 13 true = some (.ok, c1T14) := rfl

theorem c1_step15 :
    daggerSet c1T14 [110,54] 14 true = some (.ok, c1T15) := rfl

theorem c1_step16 :
    daggerSet c1T15 [112,98] 15 true = some (.ok, c1T16) := rfl

theorem c1_step17 :
    daggerSet c1T16 [113,103] 16 true = some (.ok, c1T17) := rfl

theorem c1_step18 :
    daggerSet c1T17 [117,121] 99 true = some (.ok, c1T18) := rfl

theorem c1_chain :
    daggerSetMany (daggerCreate 32) c1Keys = some c1T18 := by
  simp only [daggerSetMany, c1Keys, c1_step1, c1_step2, c1_step3, c1_step4, c1_step5, c1_step6, c1_step7, c1_step8, c1_step9, c1_step10, c1_step11, c1_step12, c1_step13, c1_step14, c1_step15, c1_step16, c1_step17, c1_step18]

theorem c1_get_lost :
    daggerGet c1T18 c1X = (DaggerResult.notFound, none, 18) := rfl

/-- Insertion sequence for the C2 probe-count counterexample:
the seventeen slot-0 keys of C1 plus one key on slot 1, filling
slots 0..17 of a capacity-32 table with PSLs 0..16,16. -/
def c2Keys : List (List Nat × Nat) :=
  [([99,98], 0), ([99,102], 1), ([99,104], 2), ([101,99], 3), ([101,118], 4), ([102,49], 5), ([103,56], 6), ([105,56], 7), ([106,48], 8), ([107,102], 9), ([107,115], 10), ([108,101], 11), ([110,105], 12), ([110,116], 13), ([110,54], 14), ([112,98], 15), ([113,103], 16),
   ([118], 50)]

/-- The absent lookup key of the C2 counterexample: primary hash
on slot 0, alternate hash on slot 1. -/
def c2K : List Nat := [118,55]

/-- Table state after all 18 inserts of the C2 sequence. -/
def c2T18 : DTable :=
  mkTable 32 18
    [(0, ⟨2038307204526247520, 7202689399594978284, [99,98], 0, 0, true, false⟩),
     (1, ⟨668233935347106112, 11484738024150728241, [99,102], 1, 1, true, false⟩),
     (2, ⟨5829892530068920288, 2779842172024389085, [99,104], 2, 2, true, false⟩),
     (3, ⟨11483941458632071168, 8988452055586222786, [101,99], 3, 3, true, false⟩),
     (4, ⟨14094218437344520256, 11601408469263465924, [101,118], 4, 4, true, false⟩),
     (5, ⟨16125700433164018688, 10506725177053917552, [102,49], 5, 5, true, false⟩),
     (6, ⟨227693398839588736, 4692996386091331500, [103,56], 6, 6, true, false⟩),
     (7, ⟨12641391398297357888, 9328825690675303109, [105,56], 7, 7, true, false⟩),
     (8, ⟨15421967445698008064, 617115892646033361, [106,48], 8, 8, true, false⟩),
     (9, ⟨14215163764724499872, 10559813384643411753, [107,102], 9, 9, true, false⟩),
     (10, ⟨11126023753094762784, 15961850956279574896, [107,115], 10, 10, true, false⟩),
     (11, ⟨11033929713840175200, 2290346045000939723, [108,101], 11, 11, true, false⟩),
     (12, ⟨10328547024795276608, 15164038539353308762, [110,105], 12, 12, true, false⟩),
     (13, ⟨1831170432456860160, 14968836199967882907, [110,116], 13, 13, true, false⟩),
     (14, ⟨1186646247708285504, 7693662081414508659, [110,54], 14, 14, true, false⟩),
     (15, ⟨13735717477570754848, 4912466625812253487, [112,98], 15, 15, true, false⟩),
     (16, ⟨381317925380479040, 5352649443171252007, [113,103], 16, 16, true, false⟩),
     (17, ⟨11714940385220460225, 10728285024594903857, [118], 50, 16, true, false⟩)]

theorem c2_step18 :
    daggerSet c1T17 [118] 50 true = some (.ok, c2T18) := rfl

theorem c2_chain :
    daggerSetMany (daggerCreate 32) c2Keys = some c2T18 := by
  simp only [daggerSetMany, c2Keys, c1_step1, c1_step2, c1_step3, c1_step4, c1_step5, c1_step6, c1_step7, c1_step8, c1_step9, c1_step10, c1_step11, c1_step12, c1_step13, c1_step14, c1_step15, c1_step16, c1_step17, c2_step18]

theorem c2_get_probes :
    daggerGet c2T18 c2K = (DaggerResult.notFound, none, 35) := rfl

/-- The seventeen colliding strings of the C3 failing input
(primary hash on slot 0 of the 256-slot Tablet pool). -/
def c3Strs : List (List Nat) :=
  [[101,99], [102,49], [106,48], [110,116], [118,55], [122,122], [122,57], [97,108,119], [97,112,54], [97,119,100], [97,121,113], [97,122,53], [98,98,120], [98,120,111], [98,120,122], [98,54,108], [98,55,119]]

/-- The string interned twice in the C3 failing input. -/
def c3X : List Nat := [99,106,52]

/-- Tablet state after intern 1 of the C3 sequence. -/
def c3Tab1 : Tablet :=
  { pool :=
      mkTable 256 1
          [(0, ⟨11483941458632071168, 8988452055586222786, [101,99], 1, 0, true, false⟩)],
    nextId := 2, contents := [[101,99]],
    count := 1, memory := 32 }

/-- Tablet state after intern 2 of the C3 sequence. -/
def c3Tab2 : Tablet :=
  { pool :=
      mkTable 256 2
          [(0, ⟨11483941458632071168, 8988452055586222786, [101,99], 1, 0, true, false⟩),
           (1, ⟨16125700433164018688, 10506725177053917552, [102,49], 2, 1, true, false⟩)],
    nextId := 3, contents := [[101,99], [102,49]],
    count := 2, memory := 64 }

/-- Tablet state after intern 3 of the C3 sequence. -/
def c3Tab3 : Tablet :=
  { pool :=
      mkTable 256 3
          [(0, ⟨11483941458632071168, 8988452055586222786, [101,99], 1, 0, true, false⟩),
           (1, ⟨16125700433164018688, 10506725177053917552, [102,49], 2, 1, true, false⟩),
           (2, ⟨15421967445698008064, 617115892646033361, [106,48], 3, 2, true, false⟩)],
    nextId := 4, contents := [[101,99], [102,49], [106,48]],
    count := 3, memory := 96 }

/-- Tablet state after intern 4 of the C3 sequence. -/
def c3Tab4 : Tablet :=
  { pool :=
      mkTable 256 4
          [(0, ⟨11483941458632071168, 8988452055586222786, [101,99], 1, 0, true, false⟩),
           (1, ⟨16125700433164018688, 10506725177053917552, [102,49], 2, 1, true, false⟩),
           (2, ⟨15421967445698008064, 617115892646033361, [106,48], 3, 2, true, false⟩),
           (3, ⟨1831170432456860160, 14968836199967882907, [110,116], 4, 3, true, false⟩)],
    nextId := 5, contents := [[101,99], [102,49], [106,48], [110,116]],
    count := 4, memory := 128 }

/-- Tablet state after intern 5 of the C3 sequence. -/
def c3Tab5 : Tablet :=
  { pool :=
      mkTable 256 5
          [(0, ⟨11483941458632071168, 8988452055586222786, [101,99], 1, 0, true, false⟩),
           (1, ⟨16125700433164018688, 10506725177053917552, [102,49], 2, 1, true, false⟩),
           (2, ⟨15421967445698008064, 617115892646033361, [106,48], 3, 2, true, false⟩),
           (3, ⟨1831170432456860160, 14968836199967882907, [110,116], 4, 3, true, false⟩),
           (4, ⟨7308050424466892544, 7660900053277900289, [118,55], 5, 4, true, false⟩)],
    nextId := 6, contents := [[101,99], [102,49], [106,48], [110,116], [118,55]],
    count := 5, memory := 160 }

/-- Tablet state after intern 6 of the C3 sequence. -/
def c3Tab6 : Tablet :=
  { pool :=
      mkTable 256 6
          [(0, ⟨11483941458632071168, 8988452055586222786, [101,99], 1, 0, true, false⟩),
           (1, ⟨16125700433164018688, 10506725177053917552, [102,49], 2, 1, true, false⟩),
           (2, ⟨15421967445698008064, 617115892646033361, [106,48], 3, 2, true, false⟩),
           (3, ⟨1831170432456860160, 14968836199967882907, [110,116], 4, 3, true, false⟩),
           (4, ⟨7308050424466892544, 7660900053277900289, [118,55], 5, 4, true, false⟩),
           (5, ⟨6642141399634106368, 14134147953609362006, [122,122], 6, 5, true, false⟩)],
    nextId := 7, contents := [[101,99], [102,49], [106,48], [110,116], [118,55], [122,122]],
    count := 6, memory := 192 }

/-- Tablet state after intern 7 of the C3 sequence. -/
def c3Tab7 : Tablet :=
  { pool :=
      mkTable 256 7
          [(0, ⟨11483941458632071168, 8988452055586222786, [101,99], 1, 0, true, false⟩),
           (1, ⟨16125700433164018688, 10506725177053917552, [102,49], 2, 1, true, false⟩),
           (2, ⟨15421967445698008064, 617115892646033361, [106,48], 3, 2, true, false⟩),
           (3, ⟨1831170432456860160, 14968836199967882907, [110,116], 4, 3, true, false⟩),
           (4, ⟨7308050424466892544, 7660900053277900289, [118,55], 5, 4, true, false⟩),
           (5, ⟨6642141399634106368, 14134147953609362006, [122,122], 6, 5, true, false⟩),
           (6, ⟨4983620434483923968, 7471150621773098484, [122,57], 7, 6, true, false⟩)],
    nextId := 8, contents := [[101,99], [102,49], [106,48], [110,116], [118,55], [122,122], [122,57]],
    count := 7, memory := 224 }

/-- Tablet state after intern 8 of the C3 sequence. -/
def c3Tab8 : Tablet :=
  { pool :=
      mkTable 256 8
          [(0, ⟨11483941458632071168, 8988452055586222786, [101,99], 1, 0, true, false⟩),
           (1, ⟨16125700433164018688, 10506725177053917552, [102,49], 2, 1, true, false⟩),
           (2, ⟨15421967445698008064, 617115892646033361, [106,48], 3, 2, true, false⟩),
           (3, ⟨1831170432456860160, 14968836199967882907, [110,116], 4, 3, true, false⟩),
           (4, ⟨7308050424466892544, 7660900053277900289, [118,55], 5, 4, true, false⟩),
           (5, ⟨6642141399634106368, 14134147953609362006, [122,122], 6, 5, true, false⟩),
           (6, ⟨4983620434483923968, 7471150621773098484, [122,57], 7, 6, true, false⟩),
           (7, ⟨16488594440371976704, 13842405109007977741, [97,108,119], 8, 7, true, false⟩)],
    nextId := 9, contents := [[101,99], [102,49], [106,48], [110,116], [118,55], [122,122], [122,57], [97,108,119]],
    count := 8, memory := 256 }

/-- Tablet state after intern 9 of the C3 sequence. -/
def c3Tab9 : Tablet :=
  { pool :=
      mkTable 256 9
          [(0, ⟨11483941458632071168, 8988452055586222786, [101,99], 1, 0, true, false⟩),
           (1, ⟨16125700433164018688, 10506725177053917552, [102,49], 2, 1, true, false⟩),
           (2, ⟨15421967445698008064, 617115892646033361, [106,48], 3, 2, true, false⟩),
           (3, ⟨1831170432456860160, 14968836199967882907, [110,116], 4, 3, true, false⟩),
           (4, ⟨7308050424466892544, 7660900053277900289, [118,55], 5, 4, true, false⟩),
           (5, ⟨6642141399634106368, 14134147953609362006, [122,122], 6, 5, true, false⟩),
           (6, ⟨4983620434483923968, 7471150621773098484, [122,57], 7, 6, true, false⟩),
           (7, ⟨16488594440371976704, 13842405109007977741, [97,108,119], 8, 7, true, false⟩),
           (8, ⟨6340243319866709504, 5423693378221271602, [97,112,54], 9, 8, true, false⟩)],
    nextId := 10, contents := [[101,99], [102,49], [106,48], [110,116], [118,55], [122,122], [122,57], [97,108,119], [97,112,54]],
    count := 9, memory := 288 }

/-- Tablet state after intern 10 of the C3 sequence. -/
def c3Tab10 : Tablet :=
  { pool :=
      mkTable 256 10
          [(0, ⟨11483941458632071168, 8988452055586222786, [101,99], 1, 0, true, false⟩),
           (1, ⟨16125700433164018688, 10506725177053917552, [102,49], 2, 1, true, false⟩),
           (2, ⟨15421967445698008064, 617115892646033361, [106,48], 3, 2, true, false⟩),
           (3, ⟨1831170432456860160, 14968836199967882907, [110,116], 4, 3, true, false⟩),
           (4, ⟨7308050424466892544, 7660900053277900289, [118,55], 5, 4, true, false⟩),
           (5, ⟨6642141399634106368, 14134147953609362006, [122,122], 6, 5, true, false⟩),
           (6, ⟨4983620434483923968, 7471150621773098484, [122,57], 7, 6, true, false⟩),
           (7, ⟨16488594440371976704, 13842405109007977741, [97,108,119], 8, 7, true, false⟩),
           (8, ⟨6340243319866709504, 5423693378221271602, [97,112,54], 9, 8, true, false⟩),
           (9, ⟨9582376370911726592, 13975298184674745811, [97,119,100], 10, 9, true, false⟩)],
    nextId := 11, contents := [[101,99], [102,49], [106,48], [110,116], [118,55], [122,122], [122,57], [97,108,119], [97,112,54], [97,119,100]],
    count := 10, memory := 320 }

/-- Tablet state after intern 11 of the C3 sequence. -/
def c3Tab11 : Tablet :=
  { pool :=
      mkTable 256 11
          [(0, ⟨11483941458632071168, 8988452055586222786, [101,99], 1, 0, true, false⟩),
           (1, ⟨16125700433164018688, 10506725177053917552, [102,49], 2, 1, true, false⟩),
           (2, ⟨15421967445698008064, 617115892646033361, [106,48], 3, 2, true, false⟩),
           (3, ⟨1831170432456860160, 14968836199967882907, [110,116], 4, 3, true, false⟩),
           (4, ⟨7308050424466892544, 7660900053277900289, [118,55], 5, 4, true, false⟩),
           (5, ⟨6642141399634106368, 14134147953609362006, [122,122], 6, 5, true, false⟩),
           (6, ⟨4983620434483923968, 7471150621773098484, [122,57], 7, 6, true, false⟩),
           (7, ⟨16488594440371976704, 13842405109007977741, [97,108,119], 8, 7, true, false⟩),
           (8, ⟨6340243319866709504, 5423693378221271602, [97,112,54], 9, 8, true, false⟩),
           (9, ⟨9582376370911726592, 13975298184674745811, [97,119,100], 10, 9, true, false⟩),
           (10, ⟨12079859124644092672, 14419837425771923166, [97,121,113], 11, 10, true, false⟩)],
    nextId := 12, contents := [[101,99], [102,49], [106,48], [110,116], [118,55], [122,122], [122,57], [97,108,119], [97,112,54], [97,119,100], [97,121,113]],
    count := 11, memory := 352 }

/-- Tablet state after intern 12 of the C3 sequence. -/
def c3Tab12 : Tablet :=
  { pool :=
      mkTable 256 12
          [(0, ⟨11483941458632071168, 8988452055586222786, [101,99], 1, 0, true, false⟩),
           (1, ⟨16125700433164018688, 10506725177053917552, [102,49], 2, 1, true, false⟩),
           (2, ⟨15421967445698008064, 617115892646033361, [106,48], 3, 2, true, false⟩),
           (3, ⟨1831170432456860160, 14968836199967882907, [110,116], 4, 3, true, false⟩),
           (4, ⟨7308050424466892544, 7660900053277900289, [118,55], 5, 4, true, false⟩),
           (5, ⟨6642141399634106368, 14134147953609362006, [122,122], 6, 5, true, false⟩),
           (6, ⟨4983620434483923968, 7471150621773098484, [122,57], 7, 6, true, false⟩),
           (7, ⟨16488594440371976704, 13842405109007977741, [97,108,119], 8, 7, true, false⟩),
           (8, ⟨6340243319866709504, 5423693378221271602, [97,112,54], 9, 8, true, false⟩),
           (9, ⟨9582376370911726592, 13975298184674745811, [97,119,100], 10, 9, true, false⟩),
           (10, ⟨12079859124644092672, 14419837425771923166, [97,121,113], 11, 10, true, false⟩),
           (11, ⟨2049435806404351488, 2115479646639741123, [97,122,53], 12, 11, true, false⟩)],
    nextId := 13, contents := [[101,99], [102,49], [106,48], [110,116], [118,55], [122,122], [122,57], [97,108,119], [97,112,54], [97,119,100], [97,121,113], [97,122,53]],
    count := 12, memory := 384 }

/-- Tablet state after intern 13 of the C3 sequence. -/
def c3Tab13 : Tablet :=
  { pool :=
      mkTable 256 13
          [(0, ⟨11483941458632071168, 8988452055586222786, [101,99], 1, 0, true, false⟩),
           (1, ⟨16125700433164018688, 10506725177053917552, [102,49], 2, 1, true, false⟩),
           (2, ⟨15421967445698008064, 617115892646033361, [106,48], 3, 2, true, false⟩),
           (3, ⟨1831170432456860160, 14968836199967882907, [110,116], 4, 3, true, false⟩),
           (4, ⟨7308050424466892544, 7660900053277900289, [118,55], 5, 4, true, false⟩),
           (5, ⟨6642141399634106368, 14134147953609362006, [122,122], 6, 5, true, false⟩),
           (6, ⟨4983620434483923968, 7471150621773098484, [122,57], 7, 6, true, false⟩),
           (7, ⟨16488594440371976704, 13842405109007977741, [97,108,119], 8, 7, true, false⟩),
           (8, ⟨6340243319866709504, 5423693378221271602, [97,112,54], 9, 8, true, false⟩),
           (9, ⟨9582376370911726592, 13975298184674745811, [97,119,100], 10, 9, true, false⟩),
           (10, ⟨12079859124644092672, 14419837425771923166, [97,121,113], 11, 10, true, false⟩),
           (11, ⟨2049435806404351488, 2115479646639741123, [97,122,53], 12, 11, true, false⟩),
           (12, ⟨7123293597506362880, 13124562828609054765, [98,98,120], 13, 12, true, false⟩)],
    nextId := 14, contents := [[101,99], [102,49], [106,48], [110,116], [118,55], [122,122], [122,57], [97,108,119], [97,112,54], [97,119,100], [97,121,113], [97,122,53], [98,98,120]],
    count := 13, memory := 416 }

/-- Tablet state after intern 14 of the C3 sequence. -/
def c3Tab14 : Tablet :=
  { pool :=
      mkTable 256 14
          [(0, ⟨11483941458632071168, 8988452055586222786, [101,99], 1, 0, true, false⟩),
           (1, ⟨16125700433164018688, 10506725177053917552, [102,49], 2, 1, true, false⟩),
           (2, ⟨15421967445698008064, 617115892646033361, [106,48], 3, 2, true, false⟩),
           (3, ⟨1831170432456860160, 14968836199967882907, [110,116], 4, 3, true, false⟩),
           (4, ⟨7308050424466892544, 7660900053277900289, [118,55], 5, 4, true, false⟩),
           (5, ⟨6642141399634106368, 14134147953609362006, [122,122], 6, 5, true, false⟩),
           (6, ⟨4983620434483923968, 7471150621773098484, [122,57], 7, 6, true, false⟩),
           (7, ⟨16488594440371976704, 13842405109007977741, [97,108,119], 8, 7, true, false⟩),
           (8, ⟨6340243319866709504, 5423693378221271602, [97,112,54], 9, 8, true, false⟩),
           (9, ⟨9582376370911726592, 13975298184674745811, [97,119,100], 10, 9, true, false⟩),
           (10, ⟨12079859124644092672, 14419837425771923166, [97,121,113], 11, 10, true, false⟩),
           (11, ⟨2049435806404351488, 2115479646639741123, [97,122,53], 12, 11, true, false⟩),
           (12, ⟨7123293597506362880, 13124562828609054765, [98,98,120], 13, 12, true, false⟩),
           (13, ⟨10350460490873176576, 5641819828673962655, [98,120,111], 14, 13, true, false⟩)],
    nextId := 15, contents := [[101,99], [102,49], [106,48], [110,116], [118,55], [122,122], [122,57], [97,108,119], [97,112,54], [97,119,100], [97,121,113], [97,122,53], [98,98,120], [98,120,111]],
    count := 14, memory := 448 }

/-- Tablet state after intern 15 of the C3 sequence. -/
def c3Tab15 : Tablet :=
  { pool :=
      mkTable 256 15
          [(0, ⟨11483941458632071168, 8988452055586222786, [101,99], 1, 0, true, false⟩),
           (1, ⟨16125700433164018688, 10506725177053917552, [102,49], 2, 1, true, false⟩),
           (2, ⟨15421967445698008064, 617115892646033361, [106,48], 3, 2, true, false⟩),
           (3, ⟨1831170432456860160, 14968836199967882907, [110,116], 4, 3, true, false⟩),
           (4, ⟨7308050424466892544, 7660900053277900289, [118,55], 5, 4, true, false⟩),
           (5, ⟨6642141399634106368, 14134147953609362006, [122,122], 6, 5, true, false⟩),
           (6, ⟨4983620434483923968, 7471150621773098484, [122,57], 7, 6, true, false⟩),
           (7, ⟨16488594440371976704, 13842405109007977741, [97,108,119], 8, 7, true, false⟩),
           (8, ⟨6340243319866709504, 5423693378221271602, [97,112,54], 9, 8, true, false⟩),
           (9, ⟨9582376370911726592, 13975298184674745811, [97,119,100], 10, 9, true, false⟩),
           (10, ⟨12079859124644092672, 14419837425771923166, [97,121,113], 11, 10, true, false⟩),
           (11, ⟨2049435806404351488, 2115479646639741123, [97,122,53], 12, 11, true, false⟩),
           (12, ⟨7123293597506362880, 13124562828609054765, [98,98,120], 13, 12, true, false⟩),
           (13, ⟨10350460490873176576, 5641819828673962655, [98,120,111], 14, 13, true, false⟩),
           (14, ⟨12570980446099321600, 6728673584101754492, [98,120,122], 15, 14, true, false⟩)],
    nextId := 16, contents := [[101,99], [102,49], [106,48], [110,116], [118,55], [122,122], [122,57], [97,108,119], [97,112,54], [97,119,100], [97,121,113], [97,122,53], [98,98,120], [98,120,111], [98,120,122]],
    count := 15, memory := 480 }

/-- Tablet state after intern 16 of the C3 sequence. -/
def c3Tab16 : Tablet :=
  { pool :=
      mkTable 256 16
          [(0, ⟨11483941458632071168, 8988452055586222786, [101,99], 1, 0, true, false⟩),
           (1, ⟨16125700433164018688, 10506725177053917552, [102,49], 2, 1, true, false⟩),
           (2, ⟨15421967445698008064, 617115892646033361, [106,48], 3, 2, true, false⟩),
           (3, ⟨1831170432456860160, 14968836199967882907, [110,116], 4, 3, true, false⟩),
           (4, ⟨7308050424466892544, 7660900053277900289, [118,55], 5, 4, true, false⟩),
           (5, ⟨6642141399634106368, 14134147953609362006, [122,122], 6, 5, true, false⟩),
           (6, ⟨4983620434483923968, 7471150621773098484, [122,57], 7, 6, true, false⟩),
           (7, ⟨16488594440371976704, 13842405109007977741, [97,108,119], 8, 7, true, false⟩),
           (8, ⟨6340243319866709504, 5423693378221271602, [97,112,54], 9, 8, true, false⟩),
           (9, ⟨9582376370911726592, 13975298184674745811, [97,119,100], 10, 9, true, false⟩),
           (10, ⟨12079859124644092672, 14419837425771923166, [97,121,113], 11, 10, true, false⟩),
           (11, ⟨2049435806404351488, 2115479646639741123, [97,122,53], 12, 11, true, false⟩),
           (12, ⟨7123293597506362880, 13124562828609054765, [98,98,120], 13, 12, true, false⟩),
           (13, ⟨10350460490873176576, 5641819828673962655, [98,120,111], 14, 13, true, false⟩),
           (14, ⟨12570980446099321600, 6728673584101754492, [98,120,122], 15, 14, true, false⟩),
           (15, ⟨14973112183949448704, 11967731739120825933, [98,54,108], 16, 15, true, false⟩)],
    nextId := 17, contents := [[101,99], [102,49], [106,48], [110,116], [118,55], [122,122], [122,57], [97,108,119], [97,112,54], [97,119,100], [97,121,113], [97,122,53], [98,98,120], [98,120,111], [98,120,122], [98,54,108]],
    count := 16, memory := 512 }

/-- Tablet state after intern 17 of the C3 sequence. -/
def c3Tab17 : Tablet :=
  { pool :=
      mkTable 256 17
          [(0, ⟨11483941458632071168, 8988452055586222786, [101,99], 1, 0, true, false⟩),
           (1, ⟨16125700433164018688, 10506725177053917552, [102,49], 2, 1, true, false⟩),
           (2, ⟨15421967445698008064, 617115892646033361, [106,48], 3, 2, true, false⟩),
           (3, ⟨1831170432456860160, 14968836199967882907, [110,116], 4, 3, true, false⟩),
           (4, ⟨7308050424466892544, 7660900053277900289, [118,55], 5, 4, true, false⟩),
           (5, ⟨6642141399634106368, 14134147953609362006, [122,122], 6, 5, true, false⟩),
           (6, ⟨4983620434483923968, 7471150621773098484, [122,57], 7, 6, true, false⟩),
           (7, ⟨16488594440371976704, 13842405109007977741, [97,108,119], 8, 7, true, false⟩),
           (8, ⟨6340243319866709504, 5423693378221271602, [97,112,54], 9, 8, true, false⟩),
           (9, ⟨9582376370911726592, 13975298184674745811, [97,119,100], 10, 9, true, false⟩),
           (10, ⟨12079859124644092672, 14419837425771923166, [97,121,113], 11, 10, true, false⟩),
           (11, ⟨2049435806404351488, 2115479646639741123, [97,122,53], 12, 11, true, false⟩),
           (12, ⟨7123293597506362880, 13124562828609054765, [98,98,120], 13, 12, true, false⟩),
           (13, ⟨10350460490873176576, 5641819828673962655, [98,120,111], 14, 13, true, false⟩),
           (14, ⟨12570980446099321600, 6728673584101754492, [98,120,122], 15, 14, true, false⟩),
           (15, ⟨14973112183949448704, 11967731739120825933, [98,54,108], 16, 15, true, false⟩),
           (16, ⟨10905173580262969856, 9098195795877012591, [98,55,119], 17, 16, true, false⟩)],
    nextId := 18, contents := [[101,99], [102,49], [106,48], [110,116], [118,55], [122,122], [122,57], [97,108,119], [97,112,54], [97,119,100], [97,121,113], [97,122,53], [98,98,120], [98,120,111], [98,120,122], [98,54,108], [98,55,119]],
    count := 17, memory := 544 }

/-- Tablet state after intern 18 of the C3 sequence. -/
def c3Tab18 : Tablet :=
  { pool :=
      mkTable 256 18
          [(0, ⟨11483941458632071168, 8988452055586222786, [101,99], 1, 0, true, false⟩),
           (1, ⟨16125700433164018688, 10506725177053917552, [102,49], 2, 1, true, false⟩),
           (2, ⟨15421967445698008064, 617115892646033361, [106,48], 3, 2, true, false⟩),
           (3, ⟨1831170432456860160, 14968836199967882907, [110,116], 4, 3, true, false⟩),
           (4, ⟨7308050424466892544, 7660900053277900289, [118,55], 5, 4, true, false⟩),
           (5, ⟨6642141399634106368, 14134147953609362006, [122,122], 6, 5, true, false⟩),
           (6, ⟨4983620434483923968, 7471150621773098484, [122,57], 7, 6, true, false⟩),
           (7, ⟨16488594440371976704, 13842405109007977741, [97,108,119], 8, 7, true, false⟩),
           (8, ⟨6340243319866709504, 5423693378221271602, [97,112,54], 9, 8, true, false⟩),
           (9, ⟨9582376370911726592, 13975298184674745811, [97,119,100], 10, 9, true, false⟩),
           (10, ⟨12079859124644092672, 14419837425771923166, [97,121,113], 11, 10, true, false⟩),
           (11, ⟨2049435806404351488, 2115479646639741123, [97,122,53], 12, 11, true, false⟩),
           (12, ⟨7123293597506362880, 13124562828609054765, [98,98,120], 13, 12, true, false⟩),
           (13, ⟨10350460490873176576, 5641819828673962655, [98,120,111], 14, 13, true, false⟩),
           (14, ⟨12570980446099321600, 6728673584101754492, [98,120,122], 15, 14, true, false⟩),
           (15, ⟨14973112183949448704, 11967731739120825933, [98,54,108], 16, 15, true, false⟩),
           (16, ⟨10905173580262969856, 9098195795877012591, [98,55,119], 17, 16, true, false⟩),
           (135, ⟨17403786223560456192, 15328712784435692423, [99,106,52], 18, 0, true, true⟩)],
    nextId := 19, contents := [[101,99], [102,49], [106,48], [110,116], [118,55], [122,122], [122,57], [97,108,119], [97,112,54], [97,119,100], [97,121,113], [97,122,53], [98,98,120], [98,120,111], [98,120,122], [98,54,108], [98,55,119], [99,106,52]],
    count := 18, memory := 576 }

/-- Tablet state after intern 19 of the C3 sequence. -/
def c3Tab19 : Tablet :=
  { pool :=
      mkTable 256 18
          [(0, ⟨11483941458632071168, 8988452055586222786, [101,99], 1, 0, true, false⟩),
           (1, ⟨16125700433164018688, 10506725177053917552, [102,49], 2, 1, true, false⟩),
           (2, ⟨15421967445698008064, 617115892646033361, [106,48], 3, 2, true, false⟩),
           (3, ⟨1831170432456860160, 14968836199967882907, [110,116], 4, 3, true, false⟩),
           (4, ⟨7308050424466892544, 7660900053277900289, [118,55], 5, 4, true, false⟩),
           (5, ⟨6642141399634106368, 14134147953609362006, [122,122], 6, 5, true, false⟩),
           (6, ⟨4983620434483923968, 7471150621773098484, [122,57], 7, 6, true, false⟩),
           (7, ⟨16488594440371976704, 13842405109007977741, [97,108,119], 8, 7, true, false⟩),
           (8, ⟨6340243319866709504, 5423693378221271602, [97,112,54], 9, 8, true, false⟩),
           (9, ⟨9582376370911726592, 13975298184674745811, [97,119,100], 10, 9, true, false⟩),
           (10, ⟨12079859124644092672, 14419837425771923166, [97,121,113], 11, 10, true, false⟩),
           (11, ⟨2049435806404351488, 2115479646639741123, [97,122,53], 12, 11, true, false⟩),
           (12, ⟨7123293597506362880, 13124562828609054765, [98,98,120], 13, 12, true, false⟩),
           (13, ⟨10350460490873176576, 5641819828673962655, [98,120,111], 14, 13, true, false⟩),
           (14, ⟨12570980446099321600, 6728673584101754492, [98,120,122], 15, 14, true, false⟩),
           (15, ⟨14973112183949448704, 11967731739120825933, [98,54,108], 16, 15, true, false⟩),
           (16, ⟨10905173580262969856, 9098195795877012591, [98,55,119], 17, 16, true, false⟩),
           (135, ⟨17403786223560456192, 15328712784435692423, [99,106,52], 18, 0, true, true⟩)],
    nextId := 20, contents := [[101,99], [102,49], [106,48], [110,116], [118,55], [122,122], [122,57], [97,108,119], [97,112,54], [97,119,100], [97,121,113], [97,122,53], [98,98,120], [98,120,111], [98,120,122], [98,54,108], [98,55,119], [99,106,52]],
    count := 18, memory := 576 }

theorem c3_step1 :
    tabletInternLen tabletCreate [101,99] = (some 1, c3Tab1) := rfl

theorem c3_step2 :
    tabletInternLen c3Tab1 [102,49] = (some 2, c3Tab2) := rfl

theorem c3_step3 :
    tabletInternLen c3Tab2 [106,48] = (some 3, c3Tab3) := rfl

theorem c3_step4 :
    tabletInternLen c3Tab3 [110,116] = (some 4, c3Tab4) := rfl

theorem c3_step5 :
    tabletInternLen c3Tab4 [118,55] = (some 5, c3Tab5) := rfl

theorem c3_step6 :
    tabletInternLen c3Tab5 [122,122] = (some 6, c3Tab6) := rfl

theorem c3_step7 :
    tabletInternLen c3Tab6 [122,57] = (some 7, c3Tab7) := rfl

theorem c3_step8 :
    tabletInternLen c3Tab7 [97,108,119] = (some 8, c3Tab8) := rfl

theorem c3_step9 :
    tabletInternLen c3Tab8 [97,112,54] = (some 9, c3Tab9) := rfl

theorem c3_step10 :
    tabletInternLen c3Tab9 [97,119,100] = (some 10, c3Tab10) := rfl

theorem c3_step11 :
    tabletInternLen c3Tab10 [97,121,113] = (some 11, c3Tab11) := rfl

theorem c3_step12 :
    tabletInternLen c3Tab11 [97,122,53] = (some 12, c3Tab12) := rfl

theorem c3_step13 :
    tabletInternLen c3Tab12 [98,98,120] = (some 13, c3Tab13) := rfl

theorem c3_step14 :
    tabletInternLen c3Tab13 [98,120,111] = (some 14, c3Tab14) := rfl

theorem c3_step15 :
    tabletInternLen c3Tab14 [98,120,122] = (some 15, c3Tab15) := rfl

theorem c3_step16 :
    tabletInternLen c3Tab15 [98,54,108] = (some 16, c3Tab16) := rfl

theorem c3_step17 :
    tabletInternLen c3Tab16 [98,55,119] = (some 17, c3Tab17) := rfl

theorem c3_step18 :
    tabletInternLen c3Tab17 [99,106,52] = (some 18, c3Tab18) := rfl

theorem c3_step19 :
    tabletInternLen c3Tab18 [99,106,52] = (none, c3Tab19) := rfl

/-- Run tablet_intern_len over a list of strings, keeping the final
tablet. -/
def tabletInternMany (T : Tablet) (ss : List (List Nat)) : Tablet :=
  match ss with
  | [] => T
  | s :: rest => tabletInternMany (tabletInternLen T s).2 rest

theorem c3_chain :
    tabletInternMany tabletCreate c3Strs = c3Tab17 := by
  simp only [tabletInternMany, c3Strs, c3_step1, c3_step2, c3_step3,
    c3_step4, c3_step5, c3_step6, c3_step7, c3_step8, c3_step9, c3_step10,
    c3_step11, c3_step12, c3_step13, c3_step14, c3_step15, c3_step16,
    c3_step17]

/-- C1: the DAGGER table does not behave as a finite map.  Failing
input: the eighteen dagger_set calls of `c1Keys` on a table created with
`dagger_create(32)`, all of which return DAGGER_OK; the last inserted
key is `c1X` and no dagger_remove is ever executed.  The claim requires
`dagger_get(c1X)` to return DAGGER_OK with value 99; the code returns
DAGGER_NOT_FOUND.  Cause: the insertion of `c1X` exceeds the PSL
threshold and places the entry at its alternate-hash (cuckoo) slot, but
the Robin Hood phase of dagger_get returns NOT_FOUND as soon as it meets
an empty slot (dagger.c lines 321-325), so the cuckoo phase that would
find the entry (lines 352-375) is never reached. -/
theorem dagger_get_loses_cuckoo_insert :
    (daggerSetMany (daggerCreate 32) c1Keys).map (fun T => daggerGet T c1X)
        = some (DaggerResult.notFound, none, 18) ∧
    c1Keys.getLast?.map Prod.fst = some c1X := by
  refine ⟨?_, by decide⟩
  rw [c1_chain]
  exact congrArg some c1_get_lost

/-- C2 counterexample: a table state reachable by eighteen dagger_set
insertions on which a single dagger_get examines 35 slots — more than
the claimed bound `2*(PSL_THRESHOLD+1) = 34`.  The Robin Hood phase
examines `PSL_THRESHOLD + 2 = 18` slots (its break fires only after the
probe at `probes = PSL_THRESHOLD + 2`), and the cuckoo phase another
`PSL_THRESHOLD + 1 = 17`. -/
theorem dagger_get_probes_exceed_34 :
    (daggerSetMany (daggerCreate 32) c2Keys).map
        (fun T => (daggerGet T c2K).2.2) = some 35 ∧
    ¬ (35 ≤ 2 * (DAGGER_PSL_THRESHOLD + 1)) := by
  refine ⟨?_, by decide⟩
  rw [c2_chain]
  exact congrArg some (by show (daggerGet c2T18 c2K).2.2 = 35; rw [c2_get_probes])

/-- The Robin Hood phase of dagger_get never pushes the probe counter
past `DAGGER_PSL_THRESHOLD + 2`. -/
theorem daggerGetPhase1_probes_le (T : DTable) (h1 : Nat) (key : List Nat) :
    ∀ fuel idx probes, probes ≤ DAGGER_PSL_THRESHOLD + 1 →
      (daggerGetPhase1 T h1 key fuel idx probes).2 ≤
        DAGGER_PSL_THRESHOLD + 2 := by
  intro fuel
  induction fuel with
  | zero =>
    intro idx probes hp
    simp only [daggerGetPhase1, DAGGER_PSL_THRESHOLD] at *
    split_ifs <;> simp <;> omega
  | succ fuel ih =>
    intro idx probes hp
    simp only [daggerGetPhase1, DAGGER_PSL_THRESHOLD] at *
    split_ifs with hocc hmatch hpsl hbreak
    all_goals try exact ih _ _ (by omega)
    all_goals simp
    all_goals omega

/-- The cuckoo phase of dagger_get adds at most `fuel` probes. -/
theorem daggerGetPhase2_probes_le (T : DTable) (h2 : Nat) (key : List Nat) :
    ∀ fuel idx probes,
      (daggerGetPhase2 T h2 key fuel idx probes).2 ≤ probes + fuel := by
  intro fuel
  induction fuel with
  | zero => intro idx probes; simp [daggerGetPhase2]
  | succ fuel ih =>
    intro idx probes
    simp only [daggerGetPhase2]
    split_ifs with hocc hmatch
    all_goals try exact le_trans (ih _ _) (by omega)
    all_goals simp

/-- C2 amended: for every DAGGER table state and every key, a single
dagger_get examines at most `2*(PSL_THRESHOLD+1) + 1 = 35` slots before
returning: the Robin Hood phase examines at most `PSL_THRESHOLD + 2`
slots and the cuckoo phase at most `PSL_THRESHOLD + 1`.  The bound holds
for arbitrary table states, hence in particular for every state
reachable by insertions. -/
theorem dagger_get_probe_bound (T : DTable) (key : List Nat) :
    (daggerGet T key).2.2 ≤ 2 * (DAGGER_PSL_THRESHOLD + 1) + 1 := by
  unfold daggerGet
  split
  · simp [DAGGER_PSL_THRESHOLD]
  · rcases h1 : daggerGetPhase1 T (nxh64 (some key) key.length T.seedPrimary)
        key (DAGGER_PSL_THRESHOLD + 2)
        (nxh64 (some key) key.length T.seedPrimary &&& T.mask) 0 with ⟨o, probes⟩
    have hb : probes ≤ DAGGER_PSL_THRESHOLD + 2 := by
      have := daggerGetPhase1_probes_le T
        (nxh64 (some key) key.length T.seedPrimary) key
        (DAGGER_PSL_THRESHOLD + 2)
        (nxh64 (some key) key.length T.seedPrimary &&& T.mask) 0
        (by simp [DAGGER_PSL_THRESHOLD])
      rw [h1] at this
      exact this
    rcases o with _ | ⟨r, v⟩
    · rcases h2 : daggerGetPhase2 T
          (nxh64Alt (some key) key.length T.seedAlternate) key
          (DAGGER_PSL_THRESHOLD + 1)
          (nxh64Alt (some key) key.length T.seedAlternate &&& T.mask)
          probes with ⟨rv, probes2⟩
      have hb2 : probes2 ≤ probes + (DAGGER_PSL_THRESHOLD + 1) := by
        have := daggerGetPhase2_probes_le T
          (nxh64Alt (some key) key.length T.seedAlternate) key
          (DAGGER_PSL_THRESHOLD + 1)
          (nxh64Alt (some key) key.length T.seedAlternate &&& T.mask) probes
        rw [h2] at this
        exact this
      simp only [h1, h2]
      simp only [DAGGER_PSL_THRESHOLD] at *
      omega
    · simp only [h1]
      simp only [DAGGER_PSL_THRESHOLD] at *
      omega

/-- C3: Tablet interning is not idempotent.  Failing input: interning
the seventeen strings of `c3Strs` and then `c3X` into a fresh Tablet
(every call returns a non-NULL pointer), and then interning `c3X` a
second time.  The claim requires the second intern of byte-equal
content to return the identical pointer; the code returns NULL, because
`c3X` was stored at its cuckoo slot, `dagger_get` cannot find it there
(the C1 defect), and the subsequent `dagger_set` of the fresh copy
reports DAGGER_EXISTS, which tablet_intern_len turns into NULL
(weave.c lines 1142-1146). -/
theorem tablet_intern_second_returns_null :
    (tabletInternLen (tabletInternMany tabletCreate c3Strs) c3X).1
        = some 18 ∧
    (tabletInternLen
        ((tabletInternLen (tabletInternMany tabletCreate c3Strs) c3X).2)
        c3X).1 = none := by
  rw [c3_chain]
  simp only [c3X]
  constructor
  · rw [c3_step18]
  · rw [c3_step18]
    exact congrArg Prod.fst c3_step19

/-! ## Weave mutation operations (src/native/weave/weave.c lines 156-357)

A Weave is a fat string `{len, cap, flags, data}`; the C stores the
bytes in a flexible array with a trailing NUL.  The model keeps the
content bytes in `data` (`data.length = len`).  The C mutating API
mutates in place and returns the (possibly reallocated) owner or NULL;
the model returns `Option WeaveS` where `none` is the NULL return and
the original value stands for the untouched Weave. -/

def WEAVE_FLAG_NONE : Nat := 0x00
def WEAVE_FLAG_INTERNED : Nat := 0x01
def WEAVE_FLAG_READONLY : Nat := 0x02
def WEAVE_FLAG_STATIC : Nat := 0x04
def WEAVE_INITIAL_CAP : Nat := 32

/-- Weave state (struct Weave). -/
structure WeaveS where
  len : Nat
  cap : Nat
  flags : Nat
  data : List Nat
deriving Repr, DecidableEq

/-- WEAVE_NEXT_POW2 / ZORYA_NEXT_POWER_OF_2_64 (pcm.h line 281). -/
def weaveNextPow2 (x : Nat) : Nat :=
  if x ≤ 1 then 1 else 2 ^ (Nat.log2 (x - 1) + 1)

/-- weave_grow_cap (weave.c lines 104-119). -/
def weaveGrowCap (current needed : Nat) : Nat :=
  if needed ≤ 64 then 64
  else
    let newCap := weaveNextPow2 needed
    if newCap < current * 2 then weaveNextPow2 (current * 2) else newCap

/-- weave_new_len (weave.c lines 160-177); allocation failure is not
modelled. -/
def weaveNewLen (s : List Nat) : WeaveS :=
  let len := s.length
  let cap := if len < WEAVE_INITIAL_CAP then WEAVE_INITIAL_CAP
             else weaveNextPow2 len
  { len := len, cap := cap, flags := WEAVE_FLAG_NONE, data := s }

/-- weave_ensure_cap (weave.c lines 255-275): fails (NULL) when the
Weave carries the INTERNED or READONLY flag, otherwise grows the
capacity if needed. -/
def weaveEnsureCap (w : WeaveS) (additional : Nat) : Option WeaveS :=
  if w.flags &&& (WEAVE_FLAG_INTERNED ||| WEAVE_FLAG_READONLY) ≠ 0 then none
  else
    let needed := w.len + additional
    if needed ≤ w.cap then some w
    else some { w with cap := weaveGrowCap w.cap needed }

/-- weave_append_len (weave.c lines 281-293).  A NULL `s` is `none`. -/
def weaveAppendLen (w : WeaveS) (s : Option (List Nat)) : Option WeaveS :=
  match s with
  | none => some w
  | some s =>
    if s.length = 0 then some w
    else
      match weaveEnsureCap w s.length with
      | none => none
      | some w =>
        some { w with len := w.len + s.length, data := w.data ++ s }

/-- weave_append_char (weave.c lines 295-297). -/
def weaveAppendChar (w : WeaveS) (c : Nat) : Option WeaveS :=
  weaveAppendLen w (some [c])

/-- weave_append_weave (weave.c lines 299-302). -/
def weaveAppendWeave (w : WeaveS) (other : Option WeaveS) : Option WeaveS :=
  match other with
  | none => some w
  | some o => weaveAppendLen w (some o.data)

/-- weave_prepend_len (weave.c lines 308-321). -/
def weavePrependLen (w : WeaveS) (s : Option (List Nat)) : Option WeaveS :=
  match s with
  | none => some w
  | some s =>
    if s.length = 0 then some w
    else
      match weaveEnsureCap w s.length with
      | none => none
      | some w =>
        some { w with len := w.len + s.length, data := s ++ w.data }

/-- weave_clear (weave.c lines 323-329): a void function; the model
returns the resulting state. -/
def weaveClear (w : WeaveS) : WeaveS :=
  if w.flags &&& (WEAVE_FLAG_INTERNED ||| WEAVE_FLAG_READONLY) ≠ 0 then w
  else { w with len := 0, data := [] }

/-- weave_truncate (weave.c lines 331-338). -/
def weaveTruncate (w : WeaveS) (len : Nat) : WeaveS :=
  if w.flags &&& (WEAVE_FLAG_INTERNED ||| WEAVE_FLAG_READONLY) ≠ 0 then w
  else if len ≥ w.len then w
  else { w with len := len, data := w.data.take len }

/-- weave_reserve (weave.c lines 340-345). -/
def weaveReserve (w : WeaveS) (minCap : Nat) : Option WeaveS :=
  if minCap ≤ w.cap then some w
  else weaveEnsureCap w (minCap - w.len)

/-- C8: every mutating operation on a Weave whose flags include INTERNED
or READONLY fails — returning NULL or doing nothing — and leaves the
Weave's length, capacity, flags and byte content unchanged: append
(bytes / char / Weave), prepend, clear, truncate, reserve and the
underlying capacity-growth primitive all either return NULL or return
the Weave untouched. -/
theorem weave_interned_readonly_immutable (w : WeaveS)
    (h : w.flags &&& (WEAVE_FLAG_INTERNED ||| WEAVE_FLAG_READONLY) ≠ 0) :
    (∀ a, weaveEnsureCap w a = none) ∧
    (∀ s, weaveAppendLen w s = some w ∨ weaveAppendLen w s = none) ∧
    (∀ c, weaveAppendChar w c = none) ∧
    (∀ o, weaveAppendWeave w o = some w ∨ weaveAppendWeave w o = none) ∧
    (∀ s, weavePrependLen w s = some w ∨ weavePrependLen w s = none) ∧
    weaveClear w = w ∧
    (∀ n, weaveTruncate w n = w) ∧
    (∀ m, weaveReserve w m = some w ∨ weaveReserve w m = none) := by
  have hcap : ∀ a, weaveEnsureCap w a = none := by
    intro a; simp [weaveEnsureCap, h]
  refine ⟨hcap, ?_, ?_, ?_, ?_, ?_, ?_, ?_⟩
  · intro s
    rcases s with _ | s
    · exact Or.inl rfl
    · by_cases hs : s.length = 0
      · exact Or.inl (by simp [weaveAppendLen, hs])
      · exact Or.inr (by simp [weaveAppendLen, hs, hcap])
  · intro c
    simp [weaveAppendChar, weaveAppendLen, hcap]
  · intro o
    rcases o with _ | o
    · exact Or.inl rfl
    · by_cases hs : o.data.length = 0
      · exact Or.inl (by simp [weaveAppendWeave, weaveAppendLen, hs])
      · exact Or.inr (by simp [weaveAppendWeave, weaveAppendLen, hs, hcap])
  · intro s
    rcases s with _ | s
    · exact Or.inl rfl
    · by_cases hs : s.length = 0
      · exact Or.inl (by simp [weavePrependLen, hs])
      · exact Or.inr (by simp [weavePrependLen, hs, hcap])
  · simp [weaveClear, h]
  · intro n; simp [weaveTruncate, h]
  · intro m
    by_cases hm : m ≤ w.cap
    · exact Or.inl (by simp [weaveReserve, hm])
    · exact Or.inr (by simp [weaveReserve, hm, hcap])

/-- Witness for C8: a concrete interned Weave (flags as set by
tablet_intern_len: INTERNED | READONLY). -/
theorem weave_interned_readonly_immutable_witness :
    (({ len := 2, cap := 2, flags := 3, data := [97, 98] } : WeaveS).flags
        &&& (WEAVE_FLAG_INTERNED ||| WEAVE_FLAG_READONLY) ≠ 0) ∧
    weaveClear { len := 2, cap := 2, flags := 3, data := [97, 98] }
      = { len := 2, cap := 2, flags := 3, data := [97, 98] } :=
  ⟨by decide,
   (weave_interned_readonly_immutable
      { len := 2, cap := 2, flags := 3, data := [97, 98] }
      (by decide)).2.2.2.2.2.1⟩

/-! ## Arena (src/native/include/zorya_arena.h)

Chunks are kept first-to-current; the current chunk (the only one
allocations bump) is the last element.  Pointers returned by alloc are
(chunk index, offset) pairs.  The alignment is the 64-bit pointer size,
8 bytes. -/

def ARENA_DEFAULT_CHUNK_SIZE : Nat := 64 * 1024
def ARENA_DEFAULT_ALIGNMENT : Nat := 8

/-- One chunk (struct ArenaChunk; the prev/next links are the list
order, `peak` is kept for fidelity). -/
structure ArenaChunk where
  capacity : Nat
  used : Nat
  peak : Nat
deriving Repr, DecidableEq

/-- Arena state (struct Arena; the allocator function pointers are the
system allocator and are not modelled). -/
structure Arena where
  chunks : List ArenaChunk
  chunkSize : Nat
  alignment : Nat
  totalAllocated : Nat
  totalCapacity : Nat
  peakAllocated : Nat
  chunkCount : Nat
  allocCount : Nat
deriving Repr, DecidableEq

/-- arena_align (zorya_arena.h line 214). -/
def arenaAlign (size : Nat) : Nat :=
  (size + ARENA_DEFAULT_ALIGNMENT - 1) / ARENA_DEFAULT_ALIGNMENT
    * ARENA_DEFAULT_ALIGNMENT

/-- arena_create (zorya_arena.h lines 254-283); allocation failure is
not modelled. -/
def arenaCreate (chunkSize : Nat) : Arena :=
  let cs := if chunkSize = 0 then ARENA_DEFAULT_CHUNK_SIZE else chunkSize
  { chunks := [{ capacity := cs, used := 0, peak := 0 }]
    chunkSize := cs
    alignment := ARENA_DEFAULT_ALIGNMENT
    totalAllocated := 0
    totalCapacity := cs
    peakAllocated := 0
    chunkCount := 1
    allocCount := 0 }

/-- arena_alloc (zorya_arena.h lines 301-345).  Returns the pointer
(chunk index, byte offset) and the new state; `none` is the NULL return
for a zero size (chunk allocation failure is not modelled).  Note the
new-chunk path of the source does not bump `alloc_count` nor the peak
watermark. -/
def arenaAlloc (a : Arena) (size : Nat) : Option ((Nat × Nat) × Arena) :=
  if size = 0 then none
  else
    let aligned := arenaAlign size
    match a.chunks.getLast? with
    | none => none
    | some chunk =>
      if chunk.used + aligned ≤ chunk.capacity then
        let ta := a.totalAllocated + aligned
        some ((a.chunks.length - 1, chunk.used),
          { a with
            chunks := a.chunks.dropLast ++
              [{ chunk with used := chunk.used + aligned }]
            totalAllocated := ta
            allocCount := a.allocCount + 1
            peakAllocated := if ta > a.peakAllocated then ta
                             else a.peakAllocated })
      else
        let ncs := if aligned > a.chunkSize then aligned else a.chunkSize
        some ((a.chunks.length, 0),
          { a with
            chunks := a.chunks ++ [{ capacity := ncs, used := aligned,
                                     peak := 0 }]
            totalCapacity := a.totalCapacity + ncs
            chunkCount := a.chunkCount + 1
            totalAllocated := a.totalAllocated + aligned })

/-- Scope marker (struct ArenaTemp, zorya_arena.h lines 173-179); the
captured chunk pointer is its index. -/
structure ArenaTemp where
  chunkIdx : Nat
  used : Nat
  totalAllocated : Nat
  allocCount : Nat
deriving Repr, DecidableEq

/-- Modelled from the spec: `arena_temp_begin` is declared in
zorya_arena.h (usage comment lines 31-34 and the ArenaTemp struct,
lines 167-190) but its implementation is not under src/.  Per spec
§4.2 it captures `(current_chunk_ptr, used_in_that_chunk,
counters_snapshot)`; the counters snapshotted are the ArenaTemp fields
`total_allocated` and `alloc_count`. -/
def arenaTempBegin (a : Arena) : ArenaTemp :=
  { chunkIdx := a.chunks.length - 1
    used := (a.chunks.getLast?.getD ⟨0, 0, 0⟩).used
    totalAllocated := a.totalAllocated
    allocCount := a.allocCount }

/-- Modelled from the spec: `arena_temp_end` is declared in
zorya_arena.h but its implementation is not under src/.  Per spec §4.2
it frees all chunks after the captured chunk, sets the captured chunk's
`used` back to the snapshot and restores the counters (the snapshotted
`total_allocated` and `alloc_count`; the capacity bookkeeping is
recomputed for the surviving chunks). -/
def arenaTempEnd (a : Arena) (t : ArenaTemp) : Arena :=
  let kept := a.chunks.take (t.chunkIdx + 1)
  let kept := match kept.getLast? with
    | none => kept
    | some c => kept.dropLast ++ [{ c with used := t.used }]
  { a with
    chunks := kept
    totalAllocated := t.totalAllocated
    allocCount := t.allocCount
    totalCapacity := (kept.map ArenaChunk.capacity).sum
    chunkCount := kept.length }

/-- Run a list of arena_alloc calls; a failed alloc (zero size) leaves
the state unchanged, as in the source. -/
def arenaAllocMany (a : Arena) (sizes : List Nat) : Arena :=
  match sizes with
  | [] => a
  | s :: rest =>
    match arenaAlloc a s with
    | none => arenaAllocMany a rest
    | some (_, a') => arenaAllocMany a' rest

/-- A single arena_alloc only modifies the current (last) chunk's
`used` or appends chunks, and never touches `chunk_size` or
`alignment`: the chunk list keeps the shape
`prefix ++ captured-chunk ++ extra`. -/
theorem arenaAlloc_chunks_shape (pre : List ArenaChunk) (cap pk : Nat)
    (a : Arena) (s : Nat) (p : Nat × Nat) (a' : Arena)
    (u : Nat) (extra : List ArenaChunk)
    (h : a.chunks = pre ++ ⟨cap, u, pk⟩ :: extra)
    (hz : arenaAlloc a s = some (p, a')) :
    (∃ u' extra', a'.chunks = pre ++ ⟨cap, u', pk⟩ :: extra') ∧
    a'.chunkSize = a.chunkSize ∧ a'.alignment = a.alignment := by
  unfold arenaAlloc at hz
  by_cases hs : s = 0
  · simp [hs] at hz
  · simp only [hs, if_false] at hz
    rcases extra with _ | ⟨e, es⟩
    · have hlast : a.chunks.getLast? = some ⟨cap, u, pk⟩ := by
        rw [h]; exact List.getLast?_concat _
      rw [hlast] at hz
      dsimp only at hz
      by_cases hfit : u + arenaAlign s ≤ cap
      · rw [if_pos hfit] at hz
        simp only [Option.some.injEq, Prod.mk.injEq] at hz
        obtain ⟨-, rfl⟩ := hz
        refine ⟨⟨u + arenaAlign s, [], ?_⟩, rfl, rfl⟩
        simp only
        rw [h, List.dropLast_concat]
      · rw [if_neg hfit] at hz
        simp only [Option.some.injEq, Prod.mk.injEq] at hz
        obtain ⟨-, rfl⟩ := hz
        refine ⟨⟨u, [⟨if arenaAlign s > a.chunkSize then arenaAlign s
          else a.chunkSize, arenaAlign s, 0⟩], ?_⟩, rfl, rfl⟩
        simp [h]
    · have hne2 : ((⟨cap, u, pk⟩ : ArenaChunk) :: e :: es) ≠ [] := by simp
      have hlast : a.chunks.getLast? =
          some (((⟨cap, u, pk⟩ : ArenaChunk) :: e :: es).getLast hne2) := by
        rw [h, List.getLast?_append,
          List.getLast?_eq_getLast _ hne2]
        rfl
      rw [hlast] at hz
      set L := ((⟨cap, u, pk⟩ : ArenaChunk) :: e :: es).getLast hne2 with hL
      dsimp only at hz
      by_cases hfit : L.used + arenaAlign s ≤ L.capacity
      · rw [if_pos hfit] at hz
        simp only [Option.some.injEq, Prod.mk.injEq] at hz
        obtain ⟨-, rfl⟩ := hz
        refine ⟨⟨u, (e :: es).dropLast ++
          [{ L with used := L.used + arenaAlign s }], ?_⟩, rfl, rfl⟩
        simp only
        rw [h]
        rw [show pre ++ (⟨cap, u, pk⟩ : ArenaChunk) :: e :: es =
            (pre ++ ⟨cap, u, pk⟩ :: (e :: es).dropLast) ++
              [(e :: es).getLast (by simp)] by
          rw [List.append_assoc]
          congr 1
          rw [show (⟨cap, u, pk⟩ : ArenaChunk) :: e :: es =
              (⟨cap, u, pk⟩ : ArenaChunk) :: (e :: es) from rfl]
          rw [List.cons_append]
          congr 1
          exact (List.dropLast_append_getLast (by simp)).symm]
        rw [List.dropLast_concat]
        simp
      · rw [if_neg hfit] at hz
        simp only [Option.some.injEq, Prod.mk.injEq] at hz
        obtain ⟨-, rfl⟩ := hz
        refine ⟨⟨u, (e :: es) ++ [⟨if arenaAlign s > a.chunkSize
          then arenaAlign s else a.chunkSize, arenaAlign s, 0⟩], ?_⟩,
          rfl, rfl⟩
        simp [h]

/-- Allocations only ever touch the chunk that was current when the
scope began or chunks after it. -/
theorem arenaAllocMany_chunks_shape (pre : List ArenaChunk)
    (cap pk : Nat) :
    ∀ (sizes : List Nat) (a : Arena) (u : Nat) (extra : List ArenaChunk),
      a.chunks = pre ++ ⟨cap, u, pk⟩ :: extra →
      ∃ u' extra',
        (arenaAllocMany a sizes).chunks = pre ++ ⟨cap, u', pk⟩ :: extra' ∧
        (arenaAllocMany a sizes).chunkSize = a.chunkSize ∧
        (arenaAllocMany a sizes).alignment = a.alignment := by
  intro sizes
  induction sizes with
  | nil => intro a u extra h; exact ⟨u, extra, h, rfl, rfl⟩
  | cons s rest ih =>
    intro a u extra h
    simp only [arenaAllocMany]
    rcases hz : arenaAlloc a s with _ | ⟨p, a'⟩
    · exact ih a u extra h
    · obtain ⟨⟨u1, extra1, hc1⟩, hcs1, hal1⟩ :=
        arenaAlloc_chunks_shape pre cap pk a s p a' u extra h hz
      obtain ⟨u', extra', hc, hcs, hal⟩ := ih a' u1 extra1 hc1
      exact ⟨u', extra', hc, hcs.trans hcs1, hal.trans hal1⟩

/-- C7: arena temporary scopes round-trip.  For every arena state with
at least one chunk and consistent capacity bookkeeping, running
`temp_begin`, then any sequence of `alloc` calls, then `temp_end` with
the returned marker restores the arena exactly: all chunks allocated
after the captured chunk are freed, the captured chunk's `used` is back
at the snapshot, the snapshotted counters (`total_allocated`,
`alloc_count`) and the capacity bookkeeping are restored, and the chunk
list is identical to its state at `temp_begin`.  (The high-water mark
`peak_allocated` is not part of the ArenaTemp snapshot and is the one
field allowed to differ.)  `arena_temp_begin` / `arena_temp_end` are
modelled from the spec, their implementation being absent from src/. -/
theorem arena_temp_roundtrip (a₀ : Arena) (sizes : List Nat)
    (hne : a₀.chunks ≠ [])
    (hwf1 : a₀.totalCapacity = (a₀.chunks.map ArenaChunk.capacity).sum)
    (hwf2 : a₀.chunkCount = a₀.chunks.length) :
    arenaTempEnd (arenaAllocMany a₀ sizes) (arenaTempBegin a₀) =
      { a₀ with
        peakAllocated := (arenaAllocMany a₀ sizes).peakAllocated } := by
  obtain ⟨c₀, hc₀⟩ : ∃ c, a₀.chunks.getLast hne = c := ⟨_, rfl⟩
  have hsplit : a₀.chunks = a₀.chunks.dropLast ++ [c₀] := by
    rw [← hc₀]; exact (List.dropLast_append_getLast hne).symm
  obtain ⟨u, extra, hch, hcs, hal⟩ :=
    arenaAllocMany_chunks_shape a₀.chunks.dropLast c₀.capacity c₀.peak
      sizes a₀ c₀.used []
      (by rw [show (⟨c₀.capacity, c₀.used, c₀.peak⟩ : ArenaChunk) = c₀
            from rfl]; simpa using hsplit)
  have hbegin : arenaTempBegin a₀ =
      ⟨a₀.chunks.dropLast.length, c₀.used, a₀.totalAllocated,
       a₀.allocCount⟩ := by
    unfold arenaTempBegin
    rw [List.getLast?_eq_getLast _ hne, hc₀]
    simp [List.length_dropLast]
  have hkept : (arenaAllocMany a₀ sizes).chunks.take
      (a₀.chunks.dropLast.length + 1) =
      a₀.chunks.dropLast ++ [⟨c₀.capacity, u, c₀.peak⟩] := by
    rw [hch, List.take_append]
    simp
  rw [hbegin]
  simp only [arenaTempEnd, hkept, List.getLast?_concat,
    List.dropLast_concat]
  have hrestore : a₀.chunks.dropLast ++
      [{ (⟨c₀.capacity, u, c₀.peak⟩ : ArenaChunk) with used := c₀.used }] =
      a₀.chunks := by
    rw [show ({ (⟨c₀.capacity, u, c₀.peak⟩ : ArenaChunk) with
        used := c₀.used } : ArenaChunk) = c₀ from rfl]
    exact hsplit.symm
  rw [hrestore]
  cases a₀ with
  | mk chs cs al ta tc pk cc ac =>
    simp only at hwf1 hwf2 hcs hal ⊢
    congr 1 <;> simp_all

/-- Witness for C7 at a concrete arena (chunk size 1024) and a
two-allocation scope whose second allocation forces a fresh chunk. -/
theorem arena_temp_roundtrip_witness :
    ((arenaCreate 1024).chunks ≠ [] ∧
     (arenaCreate 1024).totalCapacity =
       ((arenaCreate 1024).chunks.map ArenaChunk.capacity).sum ∧
     (arenaCreate 1024).chunkCount = (arenaCreate 1024).chunks.length) ∧
    arenaTempEnd (arenaAllocMany (arenaCreate 1024) [100, 2000])
        (arenaTempBegin (arenaCreate 1024)) =
      { arenaCreate 1024 with
        peakAllocated :=
          (arenaAllocMany (arenaCreate 1024) [100, 2000]).peakAllocated } :=
  ⟨⟨by decide, by decide, by decide⟩,
   arena_temp_roundtrip (arenaCreate 1024) [100, 2000]
     (by decide) (by decide) (by decide)⟩

/-! ## ZORYA-INI (src/native/ini/zorya_ini.c)

Strings are modelled as Lean `String`s; the byte view used for DAGGER
keys is the character-code list (`strBytes`), which coincides with the
byte encoding on the ASCII inputs of this development.  The process
environment (`getenv`) and the filesystem for `::include` are oracle
functions.  The `parsed` union of an entry (strtoll / strtod results,
consulted only by the typed getters) is outside every claim and is not
modelled. -/

def INI_MAX_LINE_LENGTH : Nat := 4096
def INI_MAX_KEY_LENGTH : Nat := 256
def INI_MAX_SECTION_LENGTH : Nat := 256
def INI_MAX_INCLUDE_DEPTH : Nat := 16
def INI_INITIAL_CAPACITY : Nat := 64
def INTERP_MAX_DEPTH : Nat := 32
def INTERP_MAX_OUTPUT : Nat := 65536

/-- Error codes (zorya_ini_error_t). -/
inductive IniError where
  | ok
  | errNullptr
  | errNomem
  | errIo
  | errSyntax
  | errNotFound
  | errType
  | errCircular
  | errInclude
  | errInterp
deriving Repr, DecidableEq

/-- Type hints (zorya_ini_type_t). -/
inductive IniType where
  | str
  | int
  | float
  | boolT
  | path
  | url
  | date
  | datetime
  | arr
deriving Repr, DecidableEq

/-- Byte view of an ASCII string (the C hashes the raw bytes). -/
def strBytes (s : String) : List Nat := s.data.map Char.toNat

/-- String from stored bytes (weave_cstr of an interned Weave). -/
def bytesStr (bs : List Nat) : String := String.mk (bs.map Char.ofNat)

/-- One stored entry (IniEntry).  The interned section/key/raw-value
pointers are Tablet allocation ids (`none` is a NULL pointer from a
failed intern). -/
structure IniEntry where
  sectionId : Option Nat
  keyId : Option Nat
  rawValue : Option Nat
  resolvedValue : Option String
  hint : IniType
  line : Nat
deriving Repr, DecidableEq

/-- INI context (struct ZoryaIni).  `entryVals` gives entry id `i` the
value `entryVals[i-1]` (ids are the C heap pointers); error-message
strings are not modelled. -/
structure ZoryaIni where
  entries : DTable
  entryVals : List IniEntry
  strings : Tablet
  sections : List String
  basePath : String
  includeDepth : Nat
  keyCount : Nat
  includeCount : Nat
deriving Repr

/-- zorya_ini_new (zorya_ini.c lines 592-636). -/
def zoryaIniNew : ZoryaIni :=
  { entries := daggerCreate INI_INITIAL_CAPACITY
    entryVals := []
    strings := tabletCreate
    sections := []
    basePath := "."
    includeDepth := 0
    keyCount := 0
    includeCount := 0 }

/-- Content of an interned string by id; a NULL Weave reads as ""
(weave_cstr). -/
def tabletContent (T : Tablet) (id : Option Nat) : String :=
  match id with
  | none => ""
  | some i => bytesStr ((T.contents.get? (i - 1)).getD [])

/-- skip_ws (zorya_ini.c lines 114-117). -/
def skipWsL : List Char → List Char
  | [] => []
  | c :: rest => if c = ' ' ∨ c = '\t' then skipWsL rest else c :: rest

/-- trim_trailing (zorya_ini.c lines 122-129). -/
def trimTrailingL (cs : List Char) : List Char :=
  (cs.reverse.dropWhile
    (fun c => c = ' ' ∨ c = '\t' ∨ c = '\r' ∨ c = '\n')).reverse

/-- make_full_key (zorya_ini.c lines 911-927). -/
def makeFullKey (sec key : String) : String :=
  if sec = "" then key else sec ++ "." ++ key

/-- parse_type_hint (zorya_ini.c lines 819-838). -/
def parseTypeHint (hint : String) : IniType :=
  if hint = "int" then .int
  else if hint = "float" then .float
  else if hint = "bool" then .boolT
  else if hint = "path" then .path
  else if hint = "url" then .url
  else if hint = "date" then .date
  else if hint = "datetime" then .datetime
  else if hint = "str" then .str
  else if hint.length > 2 ∧ hint.data.getD (hint.length - 2) ' ' = '[' ∧
          hint.data.getD (hint.length - 1) ' ' = ']' then .arr
  else .str

/-- get_directory (zorya_ini.c lines 147-164). -/
def getDirectory (path : String) : String :=
  match (path.data.reverse.findIdx? (· = '/')) with
  | none => "."
  | some ridx =>
    let len := path.length - 1 - ridx
    if len = 0 then "/" else String.mk (path.data.take len)

/-- join_path (zorya_ini.c lines 169-185). -/
def joinPath (base file : String) : String :=
  if file.data.head? = some '/' then file else base ++ "/" ++ file

/-- zorya_ini_get (zorya_ini.c lines 1252-1267): resolved value when
present, raw value otherwise. -/
def iniGet (ini : ZoryaIni) (key : String) : Option String :=
  match daggerGet ini.entries (strBytes key) with
  | (.ok, some id, _) =>
    match ini.entryVals.get? (id - 1) with
    | none => none
    | some e =>
      match e.resolvedValue with
      | some rv => some rv
      | none => some (tabletContent ini.strings e.rawValue)
  | _ => none

/-- strstr ":-" — index of the first occurrence of `pat` in `cs`. -/
def findSubIdx (cs pat : List Char) : Option Nat :=
  match cs with
  | [] => if pat = [] then some 0 else none
  | _ :: rest =>
    if pat.isPrefixOf cs then some 0
    else (findSubIdx rest pat).map (· + 1)

/-- Split `${var:-default}` syntax at the first ":-"
(find_variable, zorya_ini.c lines 219-232). -/
def splitDefault (var : String) : String × Option String :=
  match findSubIdx var.data [':', '-'] with
  | none => (var, none)
  | some i =>
    (String.mk (var.data.take i), some (String.mk (var.data.drop (i + 2))))

/-- Output-buffer doubling loop of resolve_string: double `cap` until
`need ≤ cap`, failing when the cap passes INTERP_MAX_OUTPUT.  `fuel` is
a structural bound; 32 doublings exceed the output limit from any
positive cap. -/
def growCapLoop (fuel : Nat) (need cap : Nat) : Option Nat :=
  match fuel with
  | 0 => none
  | fuel + 1 =>
    if need > cap then
      let cap := cap * 2
      if cap > INTERP_MAX_OUTPUT then none
      else growCapLoop fuel need cap
    else some cap

/-- Brace matching of resolve_string (zorya_ini.c lines 374-382):
returns the name characters and the characters after the closing brace,
or `none` when unbalanced. -/
def findCloseBrace : List Char → Nat → List Char → Option (List Char × List Char)
  | [], _, _ => none
  | c :: rest, depth, acc =>
    let depth' := if c = '{' then depth + 1
                  else if c = '}' then depth - 1 else depth
    if depth' = 0 then some (acc.reverse, rest)
    else findCloseBrace rest depth' (acc ++ [c])

/-- The scan of findCloseBrace consumes at least the closing brace:
the returned suffix is strictly shorter than the input. -/
theorem findCloseBrace_length :
    ∀ (cs : List Char) (d : Nat) (acc nm after : List Char),
      findCloseBrace cs d acc = some (nm, after) → after.length < cs.length := by
  intro cs
  induction cs with
  | nil => intro d acc nm after h; simp [findCloseBrace] at h
  | cons c rest ih =>
    intro d acc nm after h
    simp only [findCloseBrace] at h
    split_ifs at h <;>
      first
        | (simp only [Option.some.injEq, Prod.mk.injEq] at h
           obtain ⟨-, rfl⟩ := h
           simp)
        | (have hlen := ih _ _ _ _ h
           simp only [List.length_cons]
           omega)

mutual

/-- find_variable (zorya_ini.c lines 209-335).  The `fuel` drives the
mutual recursion with resolve_string; the source bounds the recursion by
its `depth > INTERP_MAX_DEPTH` check, so for fuel at least
`2*(INTERP_MAX_DEPTH + 2)` the fuel is never the binding constraint. -/
def findVariable (env : String → Option String) (fuel : Nat)
    (ini : ZoryaIni) (varName currentSection : String) (depth : Nat) :
    Option String :=
  match fuel with
  | 0 => none
  | fuel + 1 =>
    if varName = "" then none
    else
      let (baseVar, defaultVal) := splitDefault varName
      let result :=
        if "env:".data.isPrefixOf baseVar.data then
          env (String.mk (baseVar.data.drop 4))
        else if baseVar.data.head? = some '@' then
          match (baseVar.data.drop 1).findIdx? (· = ':') with
          | none => none
          | some idx =>
            let sec := String.mk ((baseVar.data.drop 1).take idx)
            let key := String.mk ((baseVar.data.drop 1).drop (idx + 1))
            match iniGet ini (makeFullKey sec key) with
            | none => none
            | some v => resolveString env fuel ini v currentSection (depth + 1)
        else
          match (if currentSection ≠ "" then
                   iniGet ini (makeFullKey currentSection baseVar)
                 else none) with
          | some v => resolveString env fuel ini v currentSection (depth + 1)
          | none =>
            match iniGet ini baseVar with
            | some v => resolveString env fuel ini v currentSection (depth + 1)
            | none =>
              match iniGet ini (makeFullKey "default" baseVar) with
              | some v => resolveString env fuel ini v "default" (depth + 1)
              | none =>
                match iniGet ini (makeFullKey "project" baseVar) with
                | some v => resolveString env fuel ini v "project" (depth + 1)
                | none =>
                  match iniGet ini (makeFullKey "env" baseVar) with
                  | some v => resolveString env fuel ini v "env" (depth + 1)
                  | none => none
      match result with
      | some r => some r
      | none =>
        match defaultVal with
        | some d => resolveString env fuel ini d currentSection (depth + 1)
        | none => none
  termination_by (fuel, 0, 0)

/-- Character scan of resolve_string (zorya_ini.c lines 370-477). -/
def resolveLoop (env : String → Option String) (fuel : Nat)
    (ini : ZoryaIni) (currentSection : String) (depth : Nat) :
    List Char → List Char → Nat → Option (List Char)
  | [], out, _ => some out
  | c :: cs, out, outCap =>
    if hv : c = '$' ∧ cs.head? = some '{' then
      match hcl : findCloseBrace cs.tail 1 [] with
      | none =>
        -- unbalanced ${: fall through to the regular-character copy of '$'
        if out.length + 1 ≥ outCap then
          let outCap := outCap * 2
          if outCap > INTERP_MAX_OUTPUT then none
          else resolveLoop env fuel ini currentSection depth cs
            (out ++ [c]) outCap
        else resolveLoop env fuel ini currentSection depth cs
          (out ++ [c]) outCap
      | some (nameChars, after) =>
        if nameChars.head? = some '_' then
          match growCapLoop 64 (out.length + (nameChars.length + 3) + 1)
              outCap with
          | none => none
          | some outCap =>
            resolveLoop env fuel ini currentSection depth after
              (out ++ ['$', '{'] ++ nameChars ++ ['}']) outCap
        else
          match findVariable env fuel ini (String.mk nameChars)
              currentSection depth with
          | some resolved =>
            match growCapLoop 64 (out.length + resolved.length + 1)
                outCap with
            | none => none
            | some outCap =>
              resolveLoop env fuel ini currentSection depth after
                (out ++ resolved.data) outCap
          | none =>
            resolveLoop env fuel ini currentSection depth after out outCap
    else
      if out.length + 1 ≥ outCap then
        let outCap := outCap * 2
        if outCap > INTERP_MAX_OUTPUT then none
        else resolveLoop env fuel ini currentSection depth cs
          (out ++ [c]) outCap
      else resolveLoop env fuel ini currentSection depth cs
        (out ++ [c]) outCap
  termination_by cs => (fuel, 1, cs.length)
  decreasing_by
    all_goals
      first
        | decreasing_tactic
        | (have hl := findCloseBrace_length cs.tail 1 [] nameChars after hcl
           have ht : cs.tail.length ≤ cs.length := by cases cs <;> simp
           simp_wf
           apply Prod.Lex.right
           apply Prod.Lex.right
           omega)

/-- resolve_string entry (zorya_ini.c lines 346-368). -/
def resolveString (env : String → Option String) (fuel : Nat)
    (ini : ZoryaIni) (str : String) (currentSection : String)
    (depth : Nat) : Option String :=
  match fuel with
  | 0 => none
  | fuel + 1 =>
    if depth > INTERP_MAX_DEPTH then none
    else if ¬ str.data.contains '$' then some str
    else
      let outCap := str.length * 2 + 64
      let outCap := if outCap > INTERP_MAX_OUTPUT then INTERP_MAX_OUTPUT
                    else outCap
      (resolveLoop env fuel ini currentSection depth str.data [] outCap).map
        String.mk
  termination_by (fuel, 2, 0)

end

/-- Interpolation fuel used by the loader.  The source bounds the
resolve_string / find_variable recursion by its `depth > INTERP_MAX_DEPTH`
check; every two fuel units admit one depth unit, so with 80 units of
fuel the depth check always fires first and the fuel is never the
binding constraint. -/
def INI_RESOLVE_FUEL : Nat := 80

/-- Body of resolve_entry_callback (zorya_ini.c lines 491-564) folded
over the slot indices visited by dagger_foreach (dagger.c lines
509-523): occupied slots in index order, stopping at the first
callback failure.  The callback mutates the entry in place, so later
lookups during the same pass see earlier resolved values; the parsed
numeric re-interpretation of the resolved value is not modelled. -/
def resolveAllGo (env : String → Option String) (fuel : Nat) :
    ZoryaIni → List Nat → IniError × ZoryaIni
  | ini, [] => (.ok, ini)
  | ini, i :: rest =>
    let slot := ini.entries.entryAt i
    if slot.occupied then
      match ini.entryVals.get? (slot.value - 1) with
      | none => resolveAllGo env fuel ini rest
      | some ent =>
        match ent.rawValue with
        | none => resolveAllGo env fuel ini rest
        | some _ =>
          let raw := tabletContent ini.strings ent.rawValue
          if ¬ raw.data.contains '$' then resolveAllGo env fuel ini rest
          else
            match resolveString env fuel ini raw
                (tabletContent ini.strings ent.sectionId) 0 with
            | none => (.errInterp, ini)
            | some resolved =>
              resolveAllGo env fuel
                { ini with entryVals := (ini.entryVals.set (slot.value - 1)
                    ({ ent with resolvedValue := some resolved })) } rest
    else resolveAllGo env fuel ini rest

/-- resolve_all_interpolations (zorya_ini.c lines 575-586). -/
def resolveAllInterpolations (env : String → Option String)
    (ini : ZoryaIni) : IniError × ZoryaIni :=
  resolveAllGo env INI_RESOLVE_FUEL ini (List.range ini.entries.capacity)

/-- add_section (zorya_ini.c lines 796-814): append if not present. -/
def addSection (ini : ZoryaIni) (sec : String) : ZoryaIni :=
  if ini.sections.contains sec then ini
  else { ini with sections := ini.sections ++ [sec] }

/-- add_entry (zorya_ini.c lines 932-1006).  The fresh IniEntry's heap
address is its 1-based index in `entryVals`; the three tablet_intern
calls thread the Tablet; dagger_set runs with replace = 1; any
non-DAGGER_OK result frees the entry and reports NOMEM (so the entry is
not appended).  The `parsed` numeric view is not modelled. -/
def addEntry (ini : ZoryaIni) (sec key value : String) (hint : IniType)
    (line : Nat) : IniError × ZoryaIni :=
  let fullKey := makeFullKey sec key
  let (sid, t1) := tabletInternLen ini.strings (strBytes sec)
  let (kid, t2) := tabletInternLen t1 (strBytes key)
  let (vid, t3) := tabletInternLen t2 (strBytes value)
  let entry : IniEntry :=
    { sectionId := sid, keyId := kid, rawValue := vid,
      resolvedValue := none, hint := hint, line := line }
  let id := ini.entryVals.length + 1
  match daggerSet ini.entries (strBytes fullKey) id true with
  | some (.ok, T) =>
    (.ok,
     { ini with
       entries := T
       strings := t3
       entryVals := ini.entryVals ++ [entry]
       keyCount := ini.keyCount + 1 })
  | _ => (.errNomem, { ini with strings := t3 })

/-- The line-reading loop head of parse_buffer (zorya_ini.c lines
1032-1038): up to INI_MAX_LINE_LENGTH - 1 non-newline characters, then
the newline (if that is the next character) is consumed. -/
def readIniLine (cs : List Char) : List Char × List Char :=
  let line := (cs.takeWhile (· ≠ '\n')).take (INI_MAX_LINE_LENGTH - 1)
  let rest := cs.drop line.length
  (line, if rest.head? = some '\n' then rest.tail else rest)

/-- Outcome of the key = value tail of parse_buffer (zorya_ini.c lines
1165-1228) on one line. -/
inductive KVParse where
  | invalid
  | multiline (key : String) (hint : IniType)
  | kv (key : String) (hint : IniType) (value : String)
deriving Repr, DecidableEq

/-- The key = value tail of parse_buffer (zorya_ini.c lines 1165-1228),
applied to the whitespace-skipped line. -/
def parseKeyValue (lp : List Char) : KVParse :=
  let keyScan := lp.takeWhile (fun c => c ≠ '=' ∧ c ≠ ':')
  match lp.drop keyScan.length with
  | [] => .invalid
  | sep :: afterSep =>
    let keyChars :=
      (keyScan.reverse.dropWhile (fun c => c = ' ' ∨ c = '\t')).reverse
    if keyChars.length = 0 ∨ keyChars.length ≥ INI_MAX_KEY_LENGTH then
      .invalid
    else
      let key := String.mk keyChars
      let (hint, lp2) :=
        if sep = ':' then
          let hintChars := afterSep.takeWhile
            (fun c => c ≠ '=' ∧ c ≠ ' ' ∧ c ≠ '\t')
          let hint := if 0 < hintChars.length ∧ hintChars.length < 32
                      then parseTypeHint (String.mk hintChars)
                      else IniType.str
          (hint, (afterSep.drop hintChars.length).dropWhile (· ≠ '='))
        else (IniType.str, sep :: afterSep)
      match lp2 with
      | '=' :: afterEq =>
        let vp := skipWsL afterEq
        if vp = [] then .multiline key hint
        else .kv key hint (String.mk (trimTrailingL vp))
      | _ => .invalid

/-- The per-call local state of parse_buffer (zorya_ini.c lines
1019-1027). -/
structure IniParseSt where
  ini : ZoryaIni
  currentSection : String
  inMultiline : Bool
  pendingKey : String
  pendingHint : IniType
  valueBuf : String
  valueStartLine : Nat
  lineNum : Nat

/-- End of parse_buffer (zorya_ini.c lines 1230-1246): flush a pending
multiline entry, then resolve interpolations iff this is the top-level
(non-include) call. -/
def finishParse (env : String → Option String) (st : IniParseSt) :
    IniError × ZoryaIni :=
  let ini :=
    if st.inMultiline ∧ st.pendingKey ≠ "" then
      (addEntry st.ini st.currentSection st.pendingKey st.valueBuf
        st.pendingHint st.valueStartLine).2
    else st.ini
  if ini.includeDepth = 0 then resolveAllInterpolations env ini
  else (.ok, ini)

/-- Main loop of parse_buffer (zorya_ini.c lines 1011-1246).  `fs` is
the filesystem oracle of ::include (fopen/fread; `none` is a failed
open), `env` the getenv oracle reaching resolve_string.  `fuel` is a
structural bound decremented once per line read and passed into include
recursion; the source loop always terminates, and every concrete run in
this file supplies ample fuel (exhaustion reports NOMEM).  add_entry's
return value is discarded exactly where the source discards it. -/
def parseLines (fs env : String → Option String) :
    Nat → List Char → IniParseSt → IniError × ZoryaIni
  | 0, _, st => (.errNomem, st.ini)
  | fuel + 1, cs, st =>
    match cs with
    | [] => finishParse env st
    | _ :: _ =>
      let (line0, rest) := readIniLine cs
      let line := if line0.getLast? = some '\r' then line0.dropLast else line0
      let st := { st with lineNum := st.lineNum + 1 }
      if st.inMultiline ∧ (line.head? = some ' ' ∨ line.head? = some '\t')
      then
        let content := skipWsL line
        let valueBuf :=
          if st.valueBuf.length + content.length + 2 <
              INI_MAX_LINE_LENGTH * 4 then
            (if st.valueBuf.length > 0 then st.valueBuf ++ "\n"
             else st.valueBuf) ++ String.mk content
          else st.valueBuf
        parseLines fs env fuel rest { st with valueBuf := valueBuf }
      else
        let st :=
          if st.inMultiline then
            { st with
              ini := (addEntry st.ini st.currentSection st.pendingKey
                st.valueBuf st.pendingHint st.valueStartLine).2
              inMultiline := false
              pendingKey := ""
              valueBuf := "" }
          else st
        match skipWsL line with
        | [] => parseLines fs env fuel rest st
        | c :: lrest =>
          if c = '#' ∨ c = ';' then parseLines fs env fuel rest st
          else if c = ':' ∧ lrest.head? = some ':' then
            let dp := lrest.tail
            if "include".data.isPrefixOf dp then
              let afterInc := dp.drop 7
              let optional := afterInc.head? = some '?'
              let afterOpt := if optional then afterInc.tail else afterInc
              let fname := String.mk (trimTrailingL (skipWsL afterOpt))
              let incPath := joinPath st.ini.basePath fname
              if st.ini.includeDepth ≥ INI_MAX_INCLUDE_DEPTH then
                (.errCircular, st.ini)
              else
                match fs incPath with
                | none =>
                  if optional then parseLines fs env fuel rest st
                  else (.errInclude, st.ini)
                | some incData =>
                  let inner := { st.ini with
                    basePath := getDirectory incPath
                    includeDepth := st.ini.includeDepth + 1
                    includeCount := st.ini.includeCount + 1 }
                  let (incErr, ini₂) := parseLines fs env fuel incData.data
                    { ini := inner
                      currentSection := ""
                      inMultiline := false
                      pendingKey := ""
                      pendingHint := .str
                      valueBuf := ""
                      valueStartLine := 0
                      lineNum := 0 }
                  let ini₃ := { ini₂ with
                    includeDepth := ini₂.includeDepth - 1
                    basePath := st.ini.basePath }
                  if incErr ≠ .ok then (incErr, ini₃)
                  else parseLines fs env fuel rest { st with ini := ini₃ }
            else parseLines fs env fuel rest st
          else if c = '[' then
            let secChars := lrest.takeWhile (· ≠ ']')
            if 0 < secChars.length ∧
                secChars.length < INI_MAX_SECTION_LENGTH then
              let sec := String.mk secChars
              parseLines fs env fuel rest
                { st with
                  currentSection := sec
                  ini := addSection st.ini sec }
            else parseLines fs env fuel rest st
          else
            match parseKeyValue (c :: lrest) with
            | .invalid => parseLines fs env fuel rest st
            | .multiline key hint =>
              parseLines fs env fuel rest
                { st with
                  inMultiline := true
                  pendingKey := key
                  pendingHint := hint
                  valueBuf := ""
                  valueStartLine := st.lineNum }
            | .kv key hint value =>
              parseLines fs env fuel rest
                { st with ini := (addEntry st.ini st.currentSection key
                    value hint st.lineNum).2 }

/-- zorya_ini_load_buffer (zorya_ini.c lines 776-787): parse_buffer on
the given data with the context's current state (the NULL-pointer guard
is not representable).  `fuel` bounds the total number of lines read
across the include tree. -/
def zoryaIniLoadBuffer (fs env : String → Option String) (fuel : Nat)
    (ini : ZoryaIni) (data : String) : IniError × ZoryaIni :=
  parseLines fs env fuel data.data
    { ini := ini
      currentSection := ""
      inMultiline := false
      pendingKey := ""
      pendingHint := .str
      valueBuf := ""
      valueStartLine := 0
      lineNum := 0 }

/-- The interpolation pass can fail only with INTERP: it never reports
a syntax error. -/
theorem resolveAllGo_no_syntax (env : String → Option String)
    (fuel : Nat) :
    ∀ (l : List Nat) (ini : ZoryaIni),
      (resolveAllGo env fuel ini l).1 ≠ IniError.errSyntax := by
  intro l
  induction l with
  | nil => intro ini; simp [resolveAllGo]
  | cons i rest ih =>
    intro ini
    simp only [resolveAllGo]
    repeat' split
    all_goals first | exact ih _ | simp

/-- The tail of parse_buffer never reports a syntax error. -/
theorem finishParse_no_syntax (env : String → Option String)
    (st : IniParseSt) :
    (finishParse env st).1 ≠ IniError.errSyntax := by
  simp only [finishParse, resolveAllInterpolations]
  split <;> split
  all_goals first | exact resolveAllGo_no_syntax _ _ _ _ | simp

set_option maxHeartbeats 2000000 in
/-- parse_buffer never returns ZORYA_INI_ERROR_SYNTAX: malformed lines
hit `continue`, every other exit is OK / NOMEM / CIRCULAR / INCLUDE /
INTERP or an error propagated from an include. -/
theorem parseLines_no_syntax (fs env : String → Option String) :
    ∀ (fuel : Nat) (cs : List Char) (st : IniParseSt),
      (parseLines fs env fuel cs st).1 ≠ IniError.errSyntax := by
  intro fuel
  induction fuel with
  | zero => intro cs st; simp [parseLines]
  | succ fuel ih =>
    intro cs st
    match cs with
    | [] => simpa [parseLines] using finishParse_no_syntax env st
    | c0 :: cs0 =>
      simp only [parseLines]
      repeat' split
      all_goals try exact ih _ _
      all_goals simp

/-- C9: counterexample.  The buffer "no_equals_sign_here" consists of a
single malformed non-comment, non-section line (no `=`), yet
zorya_ini_load_buffer returns ZORYA_INI_OK with no entry stored: the
key = value parser hits the `continue` for invalid lines (zorya_ini.c
line 1171) and no syntax error is ever reported. -/
theorem ini_load_malformed_line_no_error :
    (zoryaIniLoadBuffer (fun _ => none) (fun _ => none) 4 zoryaIniNew
        "no_equals_sign_here").1 = IniError.ok ∧
    (zoryaIniLoadBuffer (fun _ => none) (fun _ => none) 4 zoryaIniNew
        "no_equals_sign_here").2.keyCount = 0 :=
  ⟨rfl, rfl⟩

/-- C9 (amended): INI load never reports a syntax error.  Malformed
non-comment, non-section lines (for example a line with no `=`) are
silently skipped by parse_buffer's `continue` paths, so for every
input buffer, filesystem and environment oracle, fuel, and initial
context, zorya_ini_load_buffer never returns ZORYA_INI_ERROR_SYNTAX;
in particular the malformed-line buffer loads with ZORYA_INI_OK and
zero keys. -/
theorem ini_load_never_syntax_error (fs env : String → Option String)
    (fuel : Nat) (ini : ZoryaIni) (data : String) :
    (zoryaIniLoadBuffer fs env fuel ini data).1 ≠ IniError.errSyntax :=
  parseLines_no_syntax fs env fuel data.data _

/-- The full keys tried by variable lookup, in the order named by the
spec: `<current_section>.var`, top-level `var`, `default.var`,
`project.var`, `env.var`; alongside each key, the section that becomes
current for recursive resolution of its value (written from the spec's
words, for comparison with find_variable). -/
def iniVarCandidates (sec base : String) : List (String × String) :=
  (if sec ≠ "" then [(makeFullKey sec base, sec)] else []) ++
  [(base, sec), (makeFullKey "default" base, "default"),
   (makeFullKey "project" base, "project"),
   (makeFullKey "env" base, "env")]

/-- The first candidate key that exists in the configuration: its value
and the section used to resolve that value recursively. -/
def firstExisting (ini : ZoryaIni) :
    List (String × String) → Option (String × String)
  | [] => none
  | (k, s) :: rest =>
    match iniGet ini k with
    | some v => some (v, s)
    | none => firstExisting ini rest

set_option maxHeartbeats 4000000 in
/-- C4: for every configuration and every `${var}` reference whose base
(after splitting a `:-default` suffix) has no `env:` and no `@` prefix,
find_variable tries exactly the full keys `<current_section>.var`
(when a section is current), top-level `var`, `default.var`,
`project.var`, `env.var`, in that order, and uses the first that
exists, recursively resolving its value; when no candidate exists (or
resolution of the found value fails) and the reference carries a
`:-default`, the default text is itself recursively resolved and
substituted. -/
theorem find_variable_resolution_order
    (env : String → Option String) (fuel : Nat) (ini : ZoryaIni)
    (varName sec : String) (depth : Nat) (base : String)
    (dflt : Option String)
    (hsd : splitDefault varName = (base, dflt))
    (henv : "env:".data.isPrefixOf base.data = false)
    (hat : base.data.head? ≠ some '@')
    (hne : varName ≠ "") :
    findVariable env (fuel + 1) ini varName sec depth =
      (match firstExisting ini (iniVarCandidates sec base) with
       | some (v, s) =>
         match resolveString env fuel ini v s (depth + 1) with
         | some r => some r
         | none =>
           match dflt with
           | some d => resolveString env fuel ini d sec (depth + 1)
           | none => none
       | none =>
         match dflt with
         | some d => resolveString env fuel ini d sec (depth + 1)
         | none => none) := by
  simp only [findVariable, hsd, if_neg hne, henv, Bool.false_eq_true,
    if_false, if_neg hat]
  by_cases hsec : sec = "" <;>
    cases h1 : iniGet ini (makeFullKey sec base) <;>
    cases h2 : iniGet ini base <;>
    cases h3 : iniGet ini (makeFullKey "default" base) <;>
    cases h4 : iniGet ini (makeFullKey "project" base) <;>
    cases h5 : iniGet ini (makeFullKey "env" base) <;>
      simp only [hsec, iniVarCandidates, firstExisting,
        h1, h2, h3, h4, h5, ne_eq, not_true_eq_false, not_false_eq_true,
        if_true, ite_false, ite_true, if_false, List.nil_append,
        List.cons_append] <;>
      first
        | rfl
        | (cases dflt <;> rfl)

/-- Witness for C4 at a concrete reference `${host:-local}` in section
"db" of the empty configuration. -/
theorem find_variable_resolution_order_witness :
    (splitDefault "host:-local" = ("host", some "local") ∧
     "env:".data.isPrefixOf "host".data = false ∧
     "host".data.head? ≠ some '@' ∧
     "host:-local" ≠ "") ∧
    findVariable (fun _ => none) (8 + 1) zoryaIniNew "host:-local" "db" 0 =
      (match firstExisting zoryaIniNew (iniVarCandidates "db" "host") with
       | some (v, s) =>
         match resolveString (fun _ => none) 8 zoryaIniNew v s (0 + 1) with
         | some r => some r
         | none =>
           match some "local" with
           | some d => resolveString (fun _ => none) 8 zoryaIniNew d "db" (0 + 1)
           | none => none
       | none =>
         match some "local" with
         | some d => resolveString (fun _ => none) 8 zoryaIniNew d "db" (0 + 1)
         | none => none) :=
  ⟨⟨by decide, by decide, by decide, by decide⟩,
   find_variable_resolution_order (fun _ => none) 8 zoryaIniNew
     "host:-local" "db" 0 "host" (some "local") (by decide) (by decide)
     (by decide) (by decide)⟩

/- ============================================================
   ORDINAL (src/native/ordinal/ordinal.c)
   ============================================================ -/

def ORD_MAX_DEPS : Nat := 128
def ORD_MAX_RECURSION : Nat := 32

/-- ordinal_error_t (ordinal.h lines 126-137). -/
inductive OrdError where
  | ok
  | errNullptr
  | errNomem
  | errIo
  | errSyntax
  | errNoTarget
  | errCircular
  | errCommand
  | errDep
  | errGlob
deriving Repr, DecidableEq

/-- ordinal_status_t (ordinal.h lines 143-150). -/
inductive OrdStatus where
  | pending
  | building
  | upToDate
  | rebuilt
  | failed
  | skipped
deriving Repr, DecidableEq

/-- OrdinalConfig (ordinal.h lines 159-168). -/
structure OrdConfig where
  jobs : Nat
  verbose : Bool
  dryRun : Bool
  keepGoing : Bool
  silent : Bool
  force : Bool
  debug : Bool
  directory : Option String
deriving Repr, DecidableEq

/-- OrdinalTargetInternal (ordinal.c lines 70-85); build_time_ms is not
modelled. -/
structure OrdTarget where
  name : String
  sectionName : String
  deps : List String
  resolvedDeps : List String
  command : Option String
  resolvedCommand : Option String
  targetFile : Option String
  status : OrdStatus
  isPhony : Bool
  visited : Bool
  inStack : Bool
deriving Repr, DecidableEq

/-- The all-zero target (array slots are memset; used for the
out-of-range reads that the source never performs). -/
def ordTargetDefault : OrdTarget :=
  { name := "", sectionName := "", deps := [], resolvedDeps := []
    command := none, resolvedCommand := none, targetFile := none
    status := .pending, isPhony := false, visited := false
    inStack := false }

/-- The outside world as ORDINAL sees it: get_mtime (0 = missing file),
expand_glob ("" = no match), system()'s exit status per command, the
detected platform/arch/nproc, and the cwd / Ordinal-file directory and
chdir success used by ordinal_run. -/
structure OrdWorld where
  mtime : String → Nat
  glob : String → String
  exitCode : String → Nat
  platform : String
  arch : String
  nproc : Nat
  cwd : Option String
  ordinalDir : Option String
  chdirOk : String → Bool

/-- struct Ordinal (ordinal.c lines 90-140), restricted to the build
fields; `trace` records the commands passed to system() in order
(the observable the claims speak about). -/
structure Ordinal where
  targets : List OrdTarget
  targetMap : DTable
  config : OrdConfig
  world : OrdWorld
  defaultTarget : Option String
  trace : List String
  targetsTotal : Nat
  targetsRebuilt : Nat
  targetsUpToDate : Nat
  targetsFailed : Nat
  targetsSkipped : Nat

/-- The `dagger_get(target_map, name); idx != NULL` idiom (values are
stored as index + 1, so 0 is the NULL pointer). -/
def targetPtr (ord : Ordinal) (name : String) : Nat :=
  match daggerGet ord.targetMap (strBytes name) with
  | (.ok, some v, _) => v
  | _ => 0

/-- Write through `&ord->targets[i]`. -/
def setTargetF (ord : Ordinal) (i : Nat) (f : OrdTarget → OrdTarget) :
    Ordinal :=
  match ord.targets.get? i with
  | some t => { ord with targets := ord.targets.set i (f t) }
  | none => ord

/-- REPLACE_VAR of resolve_runtime_vars (ordinal.c lines 711-739):
replace every occurrence of `pat`, left to right, non-overlapping.
`fuel` is structural (the scan advances one way); callers pass the
string length. -/
def replaceAllGo (pat repl : List Char) : Nat → List Char → List Char
  | 0, cs => cs
  | fuel + 1, cs =>
    match cs with
    | [] => []
    | c :: rest =>
      if pat ≠ [] ∧ pat.isPrefixOf cs then
        repl ++ replaceAllGo pat repl fuel (cs.drop pat.length)
      else c :: replaceAllGo pat repl fuel rest

def replaceAll (s pat repl : String) : String :=
  String.mk (replaceAllGo pat.data repl.data s.data.length s.data)

/-- resolve_runtime_vars (ordinal.c lines 702-797).  A NULL input
returns NULL; a '$'-free input is copied verbatim; otherwise the
REPLACE_VAR chain runs in source order (allocation failures inside the
chain are not modelled, so the result is never NULL). -/
def resolveRuntimeVars (ord : Ordinal) (s : Option String)
    (t : Option OrdTarget) : Option String :=
  match s with
  | none => none
  | some str =>
    if ¬ str.data.contains '$' then some str
    else
      let r := str
      let r :=
        match t with
        | none => r
        | some t =>
          let targetVal := t.targetFile.getD t.name
          let r := replaceAll r "${_target}" targetVal
          if t.resolvedDeps ≠ [] then
            let r := replaceAll r "${_first_dep}" (t.resolvedDeps.headD "")
            let r := replaceAll r "${_all_deps}"
              (String.intercalate " " t.resolvedDeps)
            r
          else r
      let r := replaceAll r "${_platform}" ord.world.platform
      let r := replaceAll r "${_arch}" ord.world.arch
      let r := replaceAll r "${_nproc}" (Nat.repr ord.world.nproc)
      let r := replaceAll r "${_cwd}" (ord.world.cwd.getD ".")
      let r := replaceAll r "${_ordinal_dir}" (ord.world.ordinalDir.getD ".")
      some r

/-- Space splitting of an expand_glob result (ordinal.c lines 833-852):
tokens between runs of spaces.  `fuel` is structural; the caller passes
the length. -/
def splitSpacesGo : Nat → List Char → List String
  | 0, _ => []
  | fuel + 1, cs =>
    let cs := cs.dropWhile (· = ' ')
    match cs with
    | [] => []
    | _ :: _ =>
      let tok := cs.takeWhile (· ≠ ' ')
      String.mk tok :: splitSpacesGo fuel (cs.drop tok.length)

def splitSpaces (s : String) : List String :=
  splitSpacesGo (s.data.length + 1) s.data

/-- Dependency scan of resolve_target_deps (ordinal.c lines 823-869):
resolve runtime vars in each dep, expand glob patterns through the
world oracle, keep other deps verbatim (both target names and plain
files), capped at ORD_MAX_DEPS. -/
def resolveDepsGo (ord : Ordinal) (t : OrdTarget) :
    List String → List String → List String
  | acc, [] => acc
  | acc, d :: rest =>
    if acc.length ≥ ORD_MAX_DEPS then acc
    else
      match resolveRuntimeVars ord (some d) (some t) with
      | none => resolveDepsGo ord t acc rest
      | some dep =>
        if dep.data.contains '*' ∨ dep.data.contains '?' then
          let expanded := ord.world.glob dep
          if expanded ≠ "" then
            resolveDepsGo ord t
              (acc ++ (splitSpaces expanded).take (ORD_MAX_DEPS - acc.length))
              rest
          else resolveDepsGo ord t acc rest
        else resolveDepsGo ord t (acc ++ [dep]) rest

/-- resolve_target_deps (ordinal.c lines 803-876) on target `i`. -/
def resolveTargetDeps (ord : Ordinal) (i : Nat) : Ordinal :=
  let t := ord.targets.getD i ordTargetDefault
  if t.deps.length = 0 then ord
  else
    let resolved := resolveDepsGo ord { t with resolvedDeps := [] } [] t.deps
    setTargetF ord i (fun t => { t with resolvedDeps := resolved })

/-- resolve_command (ordinal.c lines 878-893) on target `i`: first the
target file path, then the command (which sees the updated file). -/
def resolveCommand (ord : Ordinal) (i : Nat) : Ordinal :=
  let ord := setTargetF ord i (fun t =>
    match t.targetFile with
    | none => t
    | some _ => { t with
        targetFile := resolveRuntimeVars ord t.targetFile (some t) })
  setTargetF ord i (fun t =>
    { t with resolvedCommand := resolveRuntimeVars ord t.command (some t) })

/-- Dependency scan of needs_rebuild (ordinal.c lines 913-940):
a dep that is a target triggers when its status is REBUILT, a dep that
is a file triggers when its mtime exceeds the output's. -/
def depTrigger (ord : Ordinal) (targetMtime : Nat) : List String → Bool
  | [] => false
  | dep :: rest =>
    let idx := targetPtr ord dep
    if idx ≠ 0 then
      if idx - 1 < ord.targets.length ∧
          (ord.targets.getD (idx - 1) ordTargetDefault).status = .rebuilt
      then true
      else depTrigger ord targetMtime rest
    else if ord.world.mtime dep > targetMtime then true
    else depTrigger ord targetMtime rest

/-- needs_rebuild (ordinal.c lines 899-943). -/
def needsRebuild (ord : Ordinal) (t : OrdTarget) : Bool :=
  if ord.config.force then true
  else if t.isPhony then true
  else
    match t.targetFile with
    | none => true
    | some tf =>
      let tm := ord.world.mtime tf
      if tm = 0 then true
      else depTrigger ord tm t.resolvedDeps

/-- execute_command (ordinal.c lines 946-980) on target `i`; the
executed command is appended to the trace. -/
def executeCommand (ord : Ordinal) (i : Nat) : OrdError × Ordinal :=
  let t := ord.targets.getD i ordTargetDefault
  match t.resolvedCommand with
  | none => (.ok, ord)
  | some cmd =>
    if cmd = "" then (.ok, ord)
    else if ord.config.dryRun then
      (.ok, setTargetF ord i (fun t => { t with status := .skipped }))
    else
      let ord := { ord with trace := ord.trace ++ [cmd] }
      if ord.world.exitCode cmd ≠ 0 then
        (.errCommand, setTargetF ord i (fun t => { t with status := .failed }))
      else (.ok, setTargetF ord i (fun t => { t with status := .rebuilt }))

/-- Dependency-building loop of build_target (ordinal.c lines
1030-1045), with the recursive call passed in (the caller supplies
build_target at one fuel less).  Returns `some err` when the loop
aborts the build. -/
def buildDepsLoop (bt : Ordinal → String → OrdError × Ordinal)
    (keepGoing : Bool) : Ordinal → List String → Option OrdError × Ordinal
  | ord, [] => (none, ord)
  | ord, dep :: rest =>
    if targetPtr ord dep ≠ 0 then
      match bt ord dep with
      | (err, ord) =>
        if err ≠ .ok ∧ ¬ keepGoing then (some err, ord)
        else buildDepsLoop bt keepGoing ord rest
    else buildDepsLoop bt keepGoing ord rest

/-- build_target (ordinal.c lines 982-1101).  `fuel` is structural and
decremented per recursion level; the source's own
`depth > ORD_MAX_RECURSION` check caps the recursion at 34 levels, so
any fuel above that is never the binding constraint (exhaustion
reports NOMEM).  Progress callbacks and printing are not modelled. -/
def buildTarget : Nat → Ordinal → String → Nat → OrdError × Ordinal
  | 0, ord, _, _ => (.errNomem, ord)
  | fuel + 1, ord, name, depth =>
    if depth > ORD_MAX_RECURSION then (.errCircular, ord)
    else
      let ptr := targetPtr ord name
      if ptr = 0 then (.ok, ord)
      else if ¬ (ptr - 1 < ord.targets.length) then (.errNoTarget, ord)
      else
        let i := ptr - 1
        let t := ord.targets.getD i ordTargetDefault
        if t.inStack then (.errCircular, ord)
        else if t.visited then (.ok, ord)
        else
          let ord := setTargetF ord i (fun t => { t with inStack := true })
          let ord := resolveTargetDeps ord i
          let t := ord.targets.getD i ordTargetDefault
          match buildDepsLoop (fun o n => buildTarget fuel o n (depth + 1))
              ord.config.keepGoing ord t.resolvedDeps with
          | (some err, ord) =>
            (err, setTargetF ord i (fun t =>
              { t with inStack := false, status := .failed }))
          | (none, ord) =>
            let ord := resolveCommand ord i
            let t := ord.targets.getD i ordTargetDefault
            if ¬ needsRebuild ord t then
              let ord := setTargetF ord i (fun t =>
                { t with
                  status := .upToDate
                  visited := true
                  inStack := false })
              (.ok, { ord with targetsUpToDate := ord.targetsUpToDate + 1 })
            else
              match executeCommand ord i with
              | (err, ord) =>
                let ord := setTargetF ord i (fun t =>
                  { t with visited := true, inStack := false })
                let ord := { ord with targetsTotal := ord.targetsTotal + 1 }
                if err ≠ .ok then
                  (err, { ord with targetsFailed := ord.targetsFailed + 1 })
                else
                  let st := (ord.targets.getD i ordTargetDefault).status
                  if st = .rebuilt then
                    (.ok, { ord with
                      targetsRebuilt := ord.targetsRebuilt + 1 })
                  else if st = .skipped then
                    (.ok, { ord with
                      targetsSkipped := ord.targetsSkipped + 1 })
                  else (.ok, ord)

/-- ordinal_run (ordinal.c lines 1107-1168): pick the target name
(argument, default target, first target), verify it exists, reset the
per-run state, honour config.directory, and build with depth 0.  The
trace is reset with the run The fuel passed to build_target is
ORD_MAX_RECURSION + 8, above the recursion cap. -/
def ordinalRun (ord : Ordinal) (target : Option String) :
    OrdError × Ordinal :=
  let targetName : Option String :=
    match target with
    | some n => some n
    | none =>
      match ord.defaultTarget with
      | some d => some d
      | none => ord.targets.head?.map (fun t => t.name)
  match targetName with
  | none => (.errNoTarget, ord)
  | some name =>
    if targetPtr ord name = 0 then (.errNoTarget, ord)
    else
      let ord := { ord with
        trace := []
        targetsTotal := 0
        targetsRebuilt := 0
        targetsUpToDate := 0
        targetsFailed := 0
        targetsSkipped := 0
        targets := ord.targets.map (fun (t : OrdTarget) =>
          { t with
            visited := false
            inStack := false
            status := .pending }) }
      match ord.config.directory with
      | some d =>
        if ¬ ord.world.chdirOk d then (.errIo, ord)
        else buildTarget (ORD_MAX_RECURSION + 8) ord name 0
      | none => buildTarget (ORD_MAX_RECURSION + 8) ord name 0

/-- The dependency scan of needs_rebuild triggers exactly when some dep
is a target with status REBUILT or a non-target whose mtime exceeds the
output's; the hypothesis is the map well-formedness that add_target
maintains (stored values are index + 1 of an existing target). -/
theorem depTrigger_cons (ord : Ordinal) (tm : Nat) (d : String)
    (rest : List String) :
    depTrigger ord tm (d :: rest) = true ↔
      ((targetPtr ord d ≠ 0 ∧ targetPtr ord d - 1 < ord.targets.length ∧
        (ord.targets.getD (targetPtr ord d - 1) ordTargetDefault).status
          = .rebuilt) ∨
       (targetPtr ord d = 0 ∧ ord.world.mtime d > tm)) ∨
      depTrigger ord tm rest = true := by
  simp only [depTrigger]
  split_ifs with h1 h2 h3 <;> tauto

theorem depTrigger_iff (ord : Ordinal) (tm : Nat) (deps : List String)
    (hwf : ∀ dep ∈ deps, targetPtr ord dep = 0 ∨
      targetPtr ord dep - 1 < ord.targets.length) :
    depTrigger ord tm deps = true ↔
      ∃ dep ∈ deps,
        (targetPtr ord dep ≠ 0 ∧
         (ord.targets.getD (targetPtr ord dep - 1) ordTargetDefault).status
           = .rebuilt) ∨
        (targetPtr ord dep = 0 ∧ ord.world.mtime dep > tm) := by
  induction deps with
  | nil => simp [depTrigger]
  | cons d rest ih =>
    have hwfr : ∀ dep ∈ rest, targetPtr ord dep = 0 ∨
        targetPtr ord dep - 1 < ord.targets.length :=
      fun dep hm => hwf dep (List.mem_cons_of_mem _ hm)
    have hd := hwf d (List.mem_cons_self _ _)
    rw [depTrigger_cons, ih hwfr, List.exists_mem_cons_iff]
    constructor
    · rintro ((⟨h1, _, h3⟩ | h) | h)
      · exact Or.inl (Or.inl ⟨h1, h3⟩)
      · exact Or.inl (Or.inr h)
      · exact Or.inr h
    · rintro ((⟨h1, h3⟩ | h) | h)
      · rcases hd with h0 | hrange
        · exact absurd h0 h1
        · exact Or.inl (Or.inl ⟨h1, hrange, h3⟩)
      · exact Or.inl (Or.inr h)
      · exact Or.inr h

/-- C5: needs_rebuild returns true exactly when the force option is
set, or the target is phony, or it has no output file, or the output
file does not exist (mtime 0), or some resolved dep is a target whose
status in the current run is REBUILT, or some resolved dep is a
non-target whose mtime strictly exceeds the output file's mtime.  The
hypothesis is the target-map well-formedness add_target maintains:
stored values are 1-based indices of existing targets. -/
theorem needs_rebuild_iff (ord : Ordinal) (t : OrdTarget)
    (hwf : ∀ dep ∈ t.resolvedDeps, targetPtr ord dep = 0 ∨
      targetPtr ord dep - 1 < ord.targets.length) :
    needsRebuild ord t = true ↔
      (ord.config.force = true ∨ t.isPhony = true ∨ t.targetFile = none ∨
       (∃ tf, t.targetFile = some tf ∧ ord.world.mtime tf = 0) ∨
       (∃ tf, t.targetFile = some tf ∧
         ∃ dep ∈ t.resolvedDeps,
           (targetPtr ord dep ≠ 0 ∧
            (ord.targets.getD (targetPtr ord dep - 1) ordTargetDefault).status
              = .rebuilt) ∨
           (targetPtr ord dep = 0 ∧
            ord.world.mtime dep > ord.world.mtime tf))) := by
  simp only [needsRebuild]
  split_ifs with hf hp
  · simp [hf]
  · simp [hp]
  · cases htf : t.targetFile with
    | none => simp
    | some tf =>
      dsimp only
      split_ifs with hm
      · simp only [eq_self_iff_true, true_iff]
        exact Or.inr (Or.inr (Or.inr (Or.inl ⟨tf, rfl, hm⟩)))
      · rw [depTrigger_iff ord _ _ hwf]
        simp only [hf, hp, htf, Bool.false_eq_true, false_or,
          Option.some.injEq, reduceCtorEq]
        constructor
        · intro h; exact Or.inr ⟨tf, rfl, h⟩
        · rintro (⟨tf', htf', hm'⟩ | ⟨tf', htf', h⟩)
          · exact absurd (htf' ▸ hm') hm
          · exact htf' ▸ h

/-- The concrete Ordinal of the C5 witness: no targets, empty map. -/
def c5Ord : Ordinal :=
  { targets := []
    targetMap := daggerCreate 16
    config := { jobs := 1, verbose := false, dryRun := false
                keepGoing := false, silent := false, force := false
                debug := false, directory := none }
    world := { mtime := fun _ => 0, glob := fun _ => ""
               exitCode := fun _ => 0, platform := "linux"
               arch := "x86_64", nproc := 1, cwd := none
               ordinalDir := none, chdirOk := fun _ => true }
    defaultTarget := none
    trace := []
    targetsTotal := 0, targetsRebuilt := 0, targetsUpToDate := 0
    targetsFailed := 0, targetsSkipped := 0 }

/-- The concrete target of the C5 witness: phony, no deps. -/
def c5T : OrdTarget := { ordTargetDefault with name := "A", isPhony := true }

/-- Witness for C5 at the phony no-dep target of the empty Ordinal. -/
theorem needs_rebuild_iff_witness :
    (∀ dep ∈ c5T.resolvedDeps, targetPtr c5Ord dep = 0 ∨
      targetPtr c5Ord dep - 1 < c5Ord.targets.length) ∧
    (needsRebuild c5Ord c5T = true ↔
      (c5Ord.config.force = true ∨ c5T.isPhony = true ∨
       c5T.targetFile = none ∨
       (∃ tf, c5T.targetFile = some tf ∧ c5Ord.world.mtime tf = 0) ∨
       (∃ tf, c5T.targetFile = some tf ∧
         ∃ dep ∈ c5T.resolvedDeps,
           (targetPtr c5Ord dep ≠ 0 ∧
            (c5Ord.targets.getD (targetPtr c5Ord dep - 1)
              ordTargetDefault).status = .rebuilt) ∨
           (targetPtr c5Ord dep = 0 ∧
            c5Ord.world.mtime dep > c5Ord.world.mtime tf)))) :=
  ⟨by simp [c5T, ordTargetDefault],
   needs_rebuild_iff c5Ord c5T (by simp [c5T, ordTargetDefault])⟩

/-- The target map of the two-target cycle: "A" at index 0 (value 1),
"B" at index 1 (value 2), capacity 16, as add_target builds it. -/
def c6MapA : DTable :=
  mkTable 16 1
    [(4, ⟨1371800463213966980, 654205520272038458, [65], 1, 0, true, false⟩)]

def c6Map : DTable :=
  mkTable 16 2
    [(4, ⟨1371800463213966980, 654205520272038458, [65], 1, 0, true, false⟩),
     (9, ⟨7884081726600927225, 4991924081310003264, [66], 2, 0, true, false⟩)]

theorem c6_map_step1 :
    daggerSet (daggerCreate 16) [65] 1 true = some (.ok, c6MapA) := rfl

theorem c6_map_step2 :
    daggerSet c6MapA [66] 2 true = some (.ok, c6Map) := rfl

/-- c6Map is reachable: it is exactly what the two add_target calls
produce on a fresh capacity-16 map. -/
theorem c6_map_chain :
    daggerSetMany (daggerCreate 16) [([65], 1), ([66], 2)] = some c6Map := by
  simp only [daggerSetMany, c6_map_step1, c6_map_step2]

/-- The two mutually-dependent targets: A depends on B, B depends on A
(commands, output files and phoniness are parameters). -/
def c6Targets (cmdA cmdB tfA tfB : Option String)
    (phonyA phonyB : Bool) : List OrdTarget :=
  [{ name := "A", sectionName := "build", deps := ["B"], resolvedDeps := []
     command := cmdA, resolvedCommand := none, targetFile := tfA
     status := .pending, isPhony := phonyA, visited := false
     inStack := false },
   { name := "B", sectionName := "build", deps := ["A"], resolvedDeps := []
     command := cmdB, resolvedCommand := none, targetFile := tfB
     status := .pending, isPhony := phonyB, visited := false
     inStack := false }]

/-- An Ordinal whose dependency graph is the A↔B cycle. -/
def c6Ord (cfg : OrdConfig) (w : OrdWorld)
    (cmdA cmdB tfA tfB : Option String) (phonyA phonyB : Bool) : Ordinal :=
  { targets := c6Targets cmdA cmdB tfA tfB phonyA phonyB
    targetMap := c6Map
    config := cfg
    world := w
    defaultTarget := none
    trace := []
    targetsTotal := 0, targetsRebuilt := 0, targetsUpToDate := 0
    targetsFailed := 0, targetsSkipped := 0 }

/-- The concrete configuration of the C6 counterexample: keep_going
set, everything else at ORDINAL_CONFIG_DEFAULT. -/
def c6CfgKeepGoing : OrdConfig :=
  { jobs := 1, verbose := false, dryRun := false, keepGoing := true
    silent := false, force := false, debug := false, directory := none }

/-- The concrete world of the C6 counterexample: every command
succeeds. -/
def c6World : OrdWorld :=
  { mtime := fun _ => 0, glob := fun _ => "", exitCode := fun _ => 0
    platform := "linux", arch := "x86_64", nproc := 1, cwd := none
    ordinalDir := none, chdirOk := fun _ => true }

/-- C6: counterexample.  With keep_going set, target A depending on B
and B depending on A (both phony, commands "echo a" / "echo b"),
ordinal_run("A") swallows the circular-dependency error inside
build_target's dependency loop (ordinal.c lines 1038-1043), executes
both commands, and returns ORDINAL_OK — the claim requires the
circular error and no execution for every configuration. -/
theorem ordinal_run_cycle_executes :
    (ordinalRun (c6Ord c6CfgKeepGoing c6World (some "echo a")
        (some "echo b") none none true true) (some "A")).1
      = OrdError.ok ∧
    (ordinalRun (c6Ord c6CfgKeepGoing c6World (some "echo a")
        (some "echo b") none none true true) (some "A")).2.trace
      = ["echo b", "echo a"] :=
  ⟨rfl, rfl⟩

/-- The configuration of the amended C6 run: ORDINAL_CONFIG_DEFAULT
(keep_going unset, no directory change). -/
def c6CfgDefault : OrdConfig :=
  { jobs := 1, verbose := false, dryRun := false, keepGoing := false
    silent := false, force := false, debug := false, directory := none }

/-- C6 (amended): with keep_going unset the A↔B dependency cycle makes
ordinal_run("A") return ORDINAL_ERROR_CIRCULAR and execute no command;
with keep_going set the circular error is swallowed inside
build_target's dependency loop and both commands run (see the
counterexample theorem).  Stated for the default configuration, both
targets phony with commands "echo a" / "echo b", in a world where
every command succeeds. -/
theorem ordinal_run_cycle_circular :
    (ordinalRun (c6Ord c6CfgDefault c6World (some "echo a")
        (some "echo b") none none true true) (some "A")).1
      = OrdError.errCircular ∧
    (ordinalRun (c6Ord c6CfgDefault c6World (some "echo a")
        (some "echo b") none none true true) (some "A")).2.trace
      = [] :=
  ⟨rfl, rfl⟩

end Pulsar
